import Mathlib

/-!
Verification development for the openstack-reporter resource-aggregation
engine.  The Go source (package `openstack` in the repository, together with
`internal/models` and `internal/storage`) is shallowly embedded here:

* pure data structures from `internal/models` become Lean structures
  (timestamps become `Nat`, `map[string]string` becomes an association list);
* every remote OpenStack call made through a `*Client` is a field of the
  `Session` structure: the field holds the value the remote side would
  deliver (`Except Err _` mirrors Go's `(value, error)` pairs; for the
  server/volume/VPN list calls the nested `Except` separates the
  `AllPages` failure from the `Extract` failure, since the code retries
  only on the former);
* process environment variables (`OS_PROJECT_NAME`, `OS_PROJECT_ID`) become
  the `Env` structure; the whole reachable remote world of one collection
  run is a `World`;
* a Go panic (the `conn.ID[:8]` slice in `getVPNConnections`) is modelled
  with `Option`: `none` is a panic that propagates to the caller.
-/

set_option autoImplicit false

/-- Go `error` values are modelled by their message string. -/
abbrev Err := String

/-- `models.Project` from `internal/models`. -/
structure Project where
  id : String
  name : String
  description : String
  domainID : String
  enabled : Bool
  deriving Repr, DecidableEq

/-- `models.VolumeAttachment` from `internal/models`. -/
structure VolumeAttachment where
  serverID : String
  serverName : String
  device : String
  deriving Repr, DecidableEq

/-- Modelled from the spec: the `models.Subnet` struct is referenced by the
aggregation engine (`getSubnetsForNetwork`) but its declaration is missing
from `src/` (the models file present there predates it); the spec describes
an "ordered subnet list (CIDR, gateway)" and the engine fills id, name,
CIDR and gateway IP. -/
structure Subnet where
  id : String
  name : String
  cidr : String
  gatewayIP : String
  deriving Repr, DecidableEq

/-- `models.Server` from `internal/models`. -/
structure ServerProps where
  id : String
  name : String
  status : String
  flavorName : String
  flavorID : String
  networks : List (String × String)
  createdAt : Nat
  updatedAt : Nat
  deriving Repr, DecidableEq

/-- `models.Volume` from `internal/models`. -/
structure VolumeProps where
  id : String
  name : String
  status : String
  size : Int
  volumeType : String
  bootable : Bool
  attachments : List VolumeAttachment
  attachedTo : String
  createdAt : Nat
  deriving Repr, DecidableEq

/-- `models.FloatingIP` from `internal/models`. -/
structure FloatingIPProps where
  id : String
  floatingIP : String
  status : String
  fixedIP : String
  portID : String
  attachedResourceName : String
  floatingNetworkID : String
  createdAt : Nat
  updatedAt : Nat
  deriving Repr, DecidableEq

/-- One entry of the `external_fixed_ips` list in a router gateway. -/
structure ExternalFixedIP where
  subnetID : String
  ipAddress : String
  deriving Repr, DecidableEq

/-- The map built by `convertGatewayInfo`: keys `network_id` and
`enable_snat` are always present, `external_fixed_ips` only when the list
is non-empty (`none` models the absent key). -/
structure GatewayInfoOut where
  networkID : String
  enableSNAT : Option Bool
  externalFixedIPs : Option (List ExternalFixedIP)
  deriving Repr, DecidableEq

/-- One route map built by `convertRoutes` (`destination`, `nexthop`). -/
structure RouteOut where
  destination : String
  nexthop : String
  deriving Repr, DecidableEq

/-- `models.Router` from `internal/models`. -/
structure RouterProps where
  id : String
  name : String
  status : String
  adminStateUp : Bool
  externalGatewayInfo : GatewayInfoOut
  routes : List RouteOut
  createdAt : Nat
  updatedAt : Nat
  deriving Repr, DecidableEq

/-- `models.Network` from `internal/models` (final revision: the subnet
list carries `models.Subnet` values). -/
structure NetworkProps where
  id : String
  name : String
  status : String
  adminStateUp : Bool
  shared : Bool
  external : Bool
  networkType : String
  subnets : List Subnet
  createdAt : Nat
  updatedAt : Nat
  deriving Repr, DecidableEq

/-- `models.LoadBalancer` from `internal/models`. -/
structure LoadBalancerProps where
  id : String
  name : String
  description : String
  provisioningStatus : String
  operatingStatus : String
  vipAddress : String
  vipSubnetID : String
  createdAt : Nat
  updatedAt : Nat
  deriving Repr, DecidableEq

/-- `models.VPNService` from `internal/models`. -/
structure VPNServiceProps where
  id : String
  name : String
  description : String
  status : String
  routerID : String
  subnetID : String
  peerID : String
  peerAddress : String
  authMode : String
  ikeVersion : String
  mtu : Int
  createdAt : Nat
  deriving Repr, DecidableEq

/-- The `Properties interface{}` payload of a `models.Resource`: the engine
only ever stores one of these typed structs in it. -/
inductive ResourceProps where
  | server (p : ServerProps)
  | volume (p : VolumeProps)
  | floatingIP (p : FloatingIPProps)
  | router (p : RouterProps)
  | network (p : NetworkProps)
  | loadBalancer (p : LoadBalancerProps)
  | vpnService (p : VPNServiceProps)
  deriving Repr, DecidableEq

/-- `models.Resource` from `internal/models` (`Type` is spelled `type`). -/
structure Resource where
  id : String
  name : String
  type : String
  projectID : String
  projectName : String
  status : String
  createdAt : Nat
  updatedAt : Nat
  metadata : List (String × String)
  properties : Option ResourceProps
  deriving Repr, DecidableEq

/-- `models.Summary` from `internal/models`. -/
structure Summary where
  totalProjects : Nat
  totalServers : Nat
  totalVolumes : Nat
  totalLoadBalancers : Nat
  totalFloatingIPs : Nat
  totalVPNServices : Nat
  totalClusters : Nat
  totalRouters : Nat
  totalNetworks : Nat
  deriving Repr, DecidableEq

/-- `models.ResourceReport` from `internal/models`. -/
structure ResourceReport where
  generatedAt : Nat
  projects : List Project
  resources : List Resource
  summary : Summary
  deriving Repr, DecidableEq

/-! ## Raw API records

These mirror the gophercloud SDK structs exactly as far as the engine
reads them.  The dynamically typed `server.Addresses` / `server.Flavor`
payloads are modelled by the shape the decoding helpers inspect. -/

/-- One element of an address list inside `server.Addresses`; the decoder
only looks for the `addr` key (`none` models an absent key). -/
structure AddrEntry where
  addr : Option String
  deriving Repr, DecidableEq

/-- A raw compute server record. `flavorRef` is the `id` entry of the
flavor map (`none` models a nil map or a map without `id`). -/
structure RawServer where
  id : String
  name : String
  status : String
  tenantID : String
  created : Nat
  updated : Nat
  flavorRef : Option String
  addresses : List (String × List AddrEntry)
  deriving Repr, DecidableEq

/-- A raw block-storage attachment record. -/
structure RawAttachment where
  serverID : String
  device : String
  deriving Repr, DecidableEq

/-- A raw block-storage volume record (`bootable` is the API's string). -/
structure RawVolume where
  id : String
  name : String
  status : String
  size : Int
  volumeType : String
  bootable : String
  attachments : List RawAttachment
  createdAt : Nat
  deriving Repr, DecidableEq

/-- A raw floating-IP record. -/
structure RawFIP where
  id : String
  floatingIP : String
  status : String
  fixedIP : String
  portID : String
  floatingNetworkID : String
  tenantID : String
  createdAt : Nat
  updatedAt : Nat
  deriving Repr, DecidableEq

/-- The gophercloud router gateway info read by `convertGatewayInfo`. -/
structure RawGateway where
  networkID : String
  enableSNAT : Option Bool
  externalFixedIPs : List ExternalFixedIP
  deriving Repr, DecidableEq

/-- A raw router static route. -/
structure RawRoute where
  destinationCIDR : String
  nextHop : String
  deriving Repr, DecidableEq

/-- A raw router record. -/
structure RawRouter where
  id : String
  name : String
  status : String
  adminStateUp : Bool
  tenantID : String
  gatewayInfo : RawGateway
  routes : List RawRoute
  deriving Repr, DecidableEq

/-- A raw network record. -/
structure RawNetwork where
  id : String
  name : String
  status : String
  adminStateUp : Bool
  shared : Bool
  tenantID : String
  createdAt : Nat
  updatedAt : Nat
  deriving Repr, DecidableEq

/-- A raw load-balancer record. -/
structure RawLB where
  id : String
  name : String
  description : String
  provisioningStatus : String
  operatingStatus : String
  vipAddress : String
  vipSubnetID : String
  projectID : String
  createdAt : Nat
  updatedAt : Nat
  deriving Repr, DecidableEq

/-- A raw VPN IPSec site connection record. -/
structure RawVPNConn where
  id : String
  name : String
  description : String
  status : String
  tenantID : String
  vpnServiceID : String
  peerID : String
  peerAddress : String
  authMode : String
  mtu : Int
  deriving Repr, DecidableEq

/-- The fields of a port record read by `getAttachedResourceName`. -/
structure RawPort where
  deviceID : String
  deviceOwner : String
  deriving Repr, DecidableEq

/-! ## The remote world of one run -/

/-- The process environment variables the engine reads. -/
structure Env where
  osProjectName : String
  osProjectID : String

/-- One authenticated client (`*openstack.Client`): the values every remote
call it can make would deliver, plus which optional sub-clients exist.
`serversPages`/`volumesPages` take the `AllTenants` flag; the outer
`Except` is the `AllPages` outcome and the inner one the `Extract`
outcome.  For the single-call collectors both failure stages simply
propagate, so they are collapsed into one `Except`. -/
structure Session where
  now : Nat
  hasAuthResult : Bool
  hasLB : Bool
  hasContainer : Bool
  serversPages : Bool → Except Err (Except Err (List RawServer))
  volumesPages : Bool → Except Err (Except Err (List RawVolume))
  fipsList : Except Err (List RawFIP)
  routersList : Except Err (List RawRouter)
  networksList : Except Err (List RawNetwork)
  lbList : Except Err (List RawLB)
  vpnConnsPages : Except Err (Except Err (List RawVPNConn))
  flavorGet : String → Except Err String
  serverGet : String → Except Err String
  portGet : String → Except Err RawPort
  projGet : String → Except Err Project
  subnetsFor : String → Except Err (List Subnet)

/-- Everything one collection run can observe: the environment, the shared
client built by `NewClient`, the composite outcomes of the two discovery
paths (`getProjectsViaAPI` = domain-scoped client construction + project
list + extract; `getProjectsViaCommand` = CLI subprocess + JSON parse),
and the per-project client factory `createClientForProject`. -/
structure World where
  env : Env
  now : Nat
  shared : Session
  apiProjects : Except Err (List Project)
  cliProjects : Except Err (List Project)
  perProject : String → Except Err Session

/-! ## Helper functions (`client.go` helpers) -/

/-- Go map lookup `projectNames[tid]` with its zero-value default. -/
def lookupName (pn : List (String × String)) (tid : String) : String :=
  match pn.find? (fun e => e.1 == tid) with
  | some e => e.2
  | none => ""

/-- `getCurrentProject`: environment-derived project identity with an
optional identity-API refinement; fails only when the client has no
authentication result. -/
def getCurrentProject (s : Session) (env : Env) : Except Err Project :=
  if !s.hasAuthResult then .error "no authentication result available"
  else
    let projectID := if env.osProjectID == "" then "current-project" else env.osProjectID
    let projectName := if env.osProjectName == "" then "Current Project" else env.osProjectName
    if projectID != "current-project" then
      match s.projGet projectID with
      | .ok p => .ok p
      | .error _ => .ok ⟨projectID, projectName, "Current working project", "", true⟩
    else .ok ⟨projectID, projectName, "Current working project", "", true⟩

/-- The collectors call `currentProject, _ := c.getCurrentProject()` and
ignore the error: on failure Go leaves the zero-value `models.Project`. -/
def currentProjectOrZero (s : Session) (env : Env) : Project :=
  match getCurrentProject s env with
  | .ok p => p
  | .error _ => ⟨"", "", "", "", false⟩

/-- `getFlavorDetails`: returns flavor name and id with "Unknown"
defaults; a failed flavor lookup degrades to the raw id. -/
def getFlavorDetails (s : Session) (flavorRef : Option String) : String × String :=
  match flavorRef with
  | none => ("Unknown", "")
  | some flavorID =>
    if flavorID == "" then ("Unknown", "")
    else
      match s.flavorGet flavorID with
      | .error _ => ("Unknown", flavorID)
      | .ok flavorName => (flavorName, flavorID)

/-- `getServerName`: server name by id, degrading to the raw id when the
lookup fails. -/
def getServerName (s : Session) (serverID : String) : String :=
  if serverID == "" then ""
  else
    match s.serverGet serverID with
    | .error _ => serverID
    | .ok n => n

/-- `getAttachedResourceName`: display name of whatever a port is bound
to, degrading through server name, device id and the empty string. -/
def getAttachedResourceName (s : Session) (portID : String) : String :=
  if portID == "" then ""
  else
    match s.portGet portID with
    | .error _ => ""
    | .ok port =>
      if port.deviceID != "" then
        if port.deviceOwner == "compute:nova" then
          let serverName := getServerName s port.deviceID
          if serverName != "" then serverName else port.deviceID
        else port.deviceID
      else ""

/-- `getVolumeAttachments`: copies server id and device and resolves the
server name for each attachment with a non-empty server id. -/
def getVolumeAttachments (s : Session) (attachments : List RawAttachment) :
    List VolumeAttachment :=
  attachments.map fun a =>
    { serverID := a.serverID
      device := a.device
      serverName := if a.serverID != "" then getServerName s a.serverID else "" }

/-- `getSubnetsForNetwork`: a failed subnet list degrades to the empty
list. -/
def getSubnetsForNetwork (s : Session) (networkID : String) : List Subnet :=
  match s.subnetsFor networkID with
  | .error _ => []
  | .ok l => l

/-- `extractNetworks`: for each network of the address map whose first
address entry carries an `addr` key, record name ↦ address. -/
def extractNetworks (addresses : List (String × List AddrEntry)) :
    List (String × String) :=
  addresses.filterMap fun e =>
    match e.2 with
    | [] => none
    | a :: _ =>
      match a.addr with
      | some ad => some (e.1, ad)
      | none => none

/-- `convertGatewayInfo`. -/
def convertGatewayInfo (g : RawGateway) : GatewayInfoOut :=
  { networkID := g.networkID
    enableSNAT := g.enableSNAT
    externalFixedIPs :=
      if g.externalFixedIPs.length > 0 then some g.externalFixedIPs else none }

/-- `convertRoutes`. -/
def convertRoutes (routes : List RawRoute) : List RouteOut :=
  routes.map fun r => { destination := r.destinationCIDR, nexthop := r.nextHop }

/-- Go's `strings.TrimSpace` (an executable model: strip leading and
trailing whitespace characters). -/
def trimSpace (s : String) : String :=
  ⟨((s.data.dropWhile Char.isWhitespace).reverse.dropWhile Char.isWhitespace).reverse⟩

/-! ## Resource collectors -/

/-- The per-server normalization loop body of `getServers` /
`getServersForSingleProject`: owning project from `projectNames` with the
given fallback identity when the lookup comes back empty. -/
def normalizeServer (s : Session) (fallbackID fallbackName : String)
    (pn : List (String × String)) (sv : RawServer) : Resource :=
  let looked := lookupName pn sv.tenantID
  let projectName := if looked == "" then fallbackName else looked
  let projectID := if looked == "" then fallbackID else sv.tenantID
  let flavor := getFlavorDetails s sv.flavorRef
  { id := sv.id
    name := sv.name
    type := "server"
    projectID := projectID
    projectName := projectName
    status := sv.status
    createdAt := sv.created
    updatedAt := sv.updated
    metadata := []
    properties := some (.server
      { id := sv.id
        name := sv.name
        status := sv.status
        flavorName := flavor.1
        flavorID := flavor.2
        networks := extractNetworks sv.addresses
        createdAt := sv.created
        updatedAt := sv.updated }) }

/-- `getServers` instrumented with the list of `AllTenants` flags of the
server list calls it issues, in order.  The first call uses
`AllTenants := true` exactly when no explicit project is configured; a
failed `AllPages` with `AllTenants` set is retried once without it. -/
def getServersT (s : Session) (env : Env) (pn : List (String × String)) :
    List Bool × Except Err (List Resource) :=
  let current := currentProjectOrZero s env
  let allTenants := trimSpace env.osProjectName == ""
  let normalize := fun (l : List RawServer) =>
    l.map (normalizeServer s current.id current.name pn)
  match s.serversPages allTenants with
  | .error e =>
    if allTenants then
      match s.serversPages false with
      | .error e2 => ([allTenants, false], .error e2)
      | .ok (.error e3) => ([allTenants, false], .error e3)
      | .ok (.ok l) => ([allTenants, false], .ok (normalize l))
    else ([allTenants], .error e)
  | .ok (.error e) => ([allTenants], .error e)
  | .ok (.ok l) => ([allTenants], .ok (normalize l))

/-- `getServers` (shared-session collector). -/
def getServers (s : Session) (env : Env) (pn : List (String × String)) :
    Except Err (List Resource) :=
  (getServersT s env pn).2

/-- The per-volume normalization loop body shared by `getVolumes` and
`getVolumesForSingleProject`: the owning project is always the supplied
identity, attachments are enriched with server names and `attachedTo`
is the first attachment's server name. -/
def normalizeVolume (s : Session) (projectID projectName : String)
    (v : RawVolume) : Resource :=
  let attachments := getVolumeAttachments s v.attachments
  let attachedTo :=
    match attachments with
    | [] => ""
    | a :: _ => a.serverName
  { id := v.id
    name := v.name
    type := "volume"
    projectID := projectID
    projectName := projectName
    status := v.status
    createdAt := v.createdAt
    updatedAt := 0
    metadata := []
    properties := some (.volume
      { id := v.id
        name := v.name
        status := v.status
        size := v.size
        volumeType := v.volumeType
        bootable := v.bootable == "true"
        attachments := attachments
        attachedTo := attachedTo
        createdAt := v.createdAt }) }

/-- `getVolumes` instrumented with the `AllTenants` flags of its volume
list calls, in order (same fallback policy as `getServersT`).  Volumes
are always attributed to the current project. -/
def getVolumesT (s : Session) (env : Env) (_pn : List (String × String)) :
    List Bool × Except Err (List Resource) :=
  let current := currentProjectOrZero s env
  let allTenants := trimSpace env.osProjectName == ""
  let normalize := fun (l : List RawVolume) =>
    l.map (normalizeVolume s current.id current.name)
  match s.volumesPages allTenants with
  | .error e =>
    if allTenants then
      match s.volumesPages false with
      | .error e2 => ([allTenants, false], .error e2)
      | .ok (.error e3) => ([allTenants, false], .error e3)
      | .ok (.ok l) => ([allTenants, false], .ok (normalize l))
    else ([allTenants], .error e)
  | .ok (.error e) => ([allTenants], .error e)
  | .ok (.ok l) => ([allTenants], .ok (normalize l))

/-- `getVolumes` (shared-session collector). -/
def getVolumes (s : Session) (env : Env) (pn : List (String × String)) :
    Except Err (List Resource) :=
  (getVolumesT s env pn).2

/-- The first entry of the one-entry `projectNames` map, as the Go code
reads it with a `for … range` + `break` (zero values when empty). -/
def headPN (pn : List (String × String)) : String × String :=
  match pn with
  | [] => ("", "")
  | e :: _ => e

/-- `getServersForSingleProject` instrumented with the `AllTenants` flags
of its server list calls: always a single scoped call. -/
def getServersForSingleProjectT (s : Session) (pn : List (String × String)) :
    List Bool × Except Err (List Resource) :=
  match s.serversPages false with
  | .error e => ([false], .error e)
  | .ok (.error e) => ([false], .error e)
  | .ok (.ok l) =>
    let fallback := headPN pn
    ([false], .ok (l.map (normalizeServer s fallback.1 fallback.2 pn)))

/-- `getServersForSingleProject` (per-project collector). -/
def getServersForSingleProject (s : Session) (pn : List (String × String)) :
    Except Err (List Resource) :=
  (getServersForSingleProjectT s pn).2

/-- `getVolumesForSingleProject` instrumented with the `AllTenants` flags
of its volume list calls: always a single scoped call. -/
def getVolumesForSingleProjectT (s : Session) (pn : List (String × String)) :
    List Bool × Except Err (List Resource) :=
  match s.volumesPages false with
  | .error e => ([false], .error e)
  | .ok (.error e) => ([false], .error e)
  | .ok (.ok l) =>
    let h := headPN pn
    ([false], .ok (l.map (normalizeVolume s h.1 h.2)))

/-- `getVolumesForSingleProject` (per-project collector). -/
def getVolumesForSingleProject (s : Session) (pn : List (String × String)) :
    Except Err (List Resource) :=
  (getVolumesForSingleProjectT s pn).2

/-- The per-floating-IP normalization loop body of `getFloatingIPs`. -/
def normalizeFIP (s : Session) (current : Project)
    (pn : List (String × String)) (f : RawFIP) : Resource :=
  let looked := lookupName pn f.tenantID
  let projectName := if looked == "" then current.name else looked
  let projectID := if looked == "" then current.id else f.tenantID
  let attachedResourceName := getAttachedResourceName s f.portID
  { id := f.id
    name := f.floatingIP
    type := "floating_ip"
    projectID := projectID
    projectName := projectName
    status := f.status
    createdAt := f.createdAt
    updatedAt := f.updatedAt
    metadata := []
    properties := some (.floatingIP
      { id := f.id
        floatingIP := f.floatingIP
        status := f.status
        fixedIP := f.fixedIP
        portID := f.portID
        attachedResourceName := attachedResourceName
        floatingNetworkID := f.floatingNetworkID
        createdAt := f.createdAt
        updatedAt := f.updatedAt }) }

/-- `getFloatingIPs`. -/
def getFloatingIPs (s : Session) (env : Env) (pn : List (String × String)) :
    Except Err (List Resource) :=
  let current := currentProjectOrZero s env
  match s.fipsList with
  | .error e => .error e
  | .ok l => .ok (l.map (normalizeFIP s current pn))

/-- The per-router normalization loop body of `getRouters` (creation and
update times are stamped with collection time). -/
def normalizeRouter (s : Session) (current : Project)
    (pn : List (String × String)) (r : RawRouter) : Resource :=
  let looked := lookupName pn r.tenantID
  let projectName := if looked == "" then current.name else looked
  let projectID := if looked == "" then current.id else r.tenantID
  { id := r.id
    name := r.name
    type := "router"
    projectID := projectID
    projectName := projectName
    status := r.status
    createdAt := s.now
    updatedAt := s.now
    metadata := []
    properties := some (.router
      { id := r.id
        name := r.name
        status := r.status
        adminStateUp := r.adminStateUp
        externalGatewayInfo := convertGatewayInfo r.gatewayInfo
        routes := convertRoutes r.routes
        createdAt := s.now
        updatedAt := s.now }) }

/-- `getRouters`. -/
def getRouters (s : Session) (env : Env) (pn : List (String × String)) :
    Except Err (List Resource) :=
  let current := currentProjectOrZero s env
  match s.routersList with
  | .error e => .error e
  | .ok l => .ok (l.map (normalizeRouter s current pn))

/-- The per-network normalization loop body of `getNetworks` (`External`
and `NetworkType` get hardcoded defaults; subnets are enriched). -/
def normalizeNetwork (s : Session) (current : Project)
    (pn : List (String × String)) (n : RawNetwork) : Resource :=
  let looked := lookupName pn n.tenantID
  let projectName := if looked == "" then current.name else looked
  let projectID := if looked == "" then current.id else n.tenantID
  { id := n.id
    name := n.name
    type := "network"
    projectID := projectID
    projectName := projectName
    status := n.status
    createdAt := n.createdAt
    updatedAt := n.updatedAt
    metadata := []
    properties := some (.network
      { id := n.id
        name := n.name
        status := n.status
        adminStateUp := n.adminStateUp
        shared := n.shared
        external := false
        networkType := "local"
        subnets := getSubnetsForNetwork s n.id
        createdAt := n.createdAt
        updatedAt := n.updatedAt }) }

/-- `getNetworks`. -/
def getNetworks (s : Session) (env : Env) (pn : List (String × String)) :
    Except Err (List Resource) :=
  let current := currentProjectOrZero s env
  match s.networksList with
  | .error e => .error e
  | .ok l => .ok (l.map (normalizeNetwork s current pn))

/-- The per-load-balancer normalization loop body of `getLoadBalancers`. -/
def normalizeLB (current : Project) (pn : List (String × String))
    (lb : RawLB) : Resource :=
  let looked := lookupName pn lb.projectID
  let projectName := if looked == "" then current.name else looked
  let projectID := if looked == "" then current.id else lb.projectID
  { id := lb.id
    name := lb.name
    type := "load_balancer"
    projectID := projectID
    projectName := projectName
    status := lb.provisioningStatus
    createdAt := lb.createdAt
    updatedAt := lb.updatedAt
    metadata := []
    properties := some (.loadBalancer
      { id := lb.id
        name := lb.name
        description := lb.description
        provisioningStatus := lb.provisioningStatus
        operatingStatus := lb.operatingStatus
        vipAddress := lb.vipAddress
        vipSubnetID := lb.vipSubnetID
        createdAt := lb.createdAt
        updatedAt := lb.updatedAt }) }

/-- `getLoadBalancers`: the empty list when the load-balancer sub-client
is unavailable. -/
def getLoadBalancers (s : Session) (env : Env) (pn : List (String × String)) :
    Except Err (List Resource) :=
  if !s.hasLB then .ok []
  else
    let current := currentProjectOrZero s env
    match s.lbList with
    | .error e => .error e
    | .ok l => .ok (l.map (normalizeLB current pn))

/-- The display name `getVPNConnections` derives for a connection: the
connection's own name, or `vpn-connection-` plus the first 8 characters
of its id.  The slice `conn.ID[:8]` panics (modelled by `none`) when the
id is shorter than 8 characters. -/
def vpnConnName (conn : RawVPNConn) : Option String :=
  if conn.name == "" then
    if 8 ≤ conn.id.length then
      some ("vpn-connection-" ++ conn.id.take 8)
    else none
  else some conn.name

/-- One VPN site connection as a `Resource` (given its derived name). -/
def mkVPNResource (s : Session) (current : Project)
    (pn : List (String × String)) (c : RawVPNConn) (nm : String) : Resource :=
  let looked := lookupName pn c.tenantID
  let projectName := if looked == "" then current.name else looked
  let projectID := if looked == "" then current.id else c.tenantID
  { id := c.id
    name := nm
    type := "vpn_service"
    projectID := projectID
    projectName := projectName
    status := c.status
    createdAt := s.now
    updatedAt := 0
    metadata := []
    properties := some (.vpnService
      { id := c.id
        name := nm
        description := c.description
        status := c.status
        routerID := c.vpnServiceID
        subnetID := ""
        peerID := c.peerID
        peerAddress := c.peerAddress
        authMode := c.authMode
        ikeVersion := ""
        mtu := c.mtu
        createdAt := s.now }) }

/-- The normalization loop of `getVPNConnections`; `none` is the Go panic
raised by the name derivation on a too-short id. -/
def normalizeVPNConns (s : Session) (current : Project)
    (pn : List (String × String)) : List RawVPNConn → Option (List Resource)
  | [] => some []
  | c :: rest =>
    match vpnConnName c with
    | none => none
    | some nm =>
      match normalizeVPNConns s current pn rest with
      | none => none
      | some rs => some (mkVPNResource s current pn c nm :: rs)

/-- `getVPNConnections`: list failures are reported as wrapped errors,
and the normalization loop can panic (`none`). -/
def getVPNConnections (s : Session) (env : Env)
    (pn : List (String × String)) : Option (Except Err (List Resource)) :=
  let current := currentProjectOrZero s env
  match s.vpnConnsPages with
  | .error e => some (.error ("failed to list VPN site connections: " ++ e))
  | .ok (.error e) => some (.error ("failed to extract VPN site connections: " ++ e))
  | .ok (.ok l) => (normalizeVPNConns s current pn l).map .ok

/-- `getClusters`: a placeholder that always reports the empty list. -/
def getClusters (_s : Session) : Except Err (List Resource) :=
  .ok []

/-! ## Aggregator / report builder -/

/-- `calculateSummary`'s loop body: the `switch resource.Type` incrementing
one counter per closed-set type. -/
def bumpSummary (acc : Summary) (r : Resource) : Summary :=
  if r.type == "server" then { acc with totalServers := acc.totalServers + 1 }
  else if r.type == "volume" then { acc with totalVolumes := acc.totalVolumes + 1 }
  else if r.type == "load_balancer" then { acc with totalLoadBalancers := acc.totalLoadBalancers + 1 }
  else if r.type == "floating_ip" then { acc with totalFloatingIPs := acc.totalFloatingIPs + 1 }
  else if r.type == "vpn_service" then { acc with totalVPNServices := acc.totalVPNServices + 1 }
  else if r.type == "cluster" then { acc with totalClusters := acc.totalClusters + 1 }
  else if r.type == "router" then { acc with totalRouters := acc.totalRouters + 1 }
  else if r.type == "network" then { acc with totalNetworks := acc.totalNetworks + 1 }
  else acc

/-- `calculateSummary`. -/
def calculateSummary (resources : List Resource) (totalProjects : Nat) : Summary :=
  resources.foldl bumpSummary
    { totalProjects := totalProjects
      totalServers := 0
      totalVolumes := 0
      totalLoadBalancers := 0
      totalFloatingIPs := 0
      totalVPNServices := 0
      totalClusters := 0
      totalRouters := 0
      totalNetworks := 0 }

/-- `collectResourcesForProjects` (and its WithProgress twin, which only
adds progress events): single-project collection over the shared client;
the first five collectors are fatal on failure, load balancers, VPN
connections and clusters are appended only on success. -/
def collectResourcesForProjects (s : Session) (env : Env) (now : Nat)
    (projects : List Project) (pn : List (String × String)) :
    Option (Except Err ResourceReport) :=
  match getServers s env pn with
  | .error e => some (.error ("failed to get servers: " ++ e))
  | .ok serverResources =>
  match getVolumes s env pn with
  | .error e => some (.error ("failed to get volumes: " ++ e))
  | .ok volumeResources =>
  match getFloatingIPs s env pn with
  | .error e => some (.error ("failed to get floating IPs: " ++ e))
  | .ok floatingIPResources =>
  match getRouters s env pn with
  | .error e => some (.error ("failed to get routers: " ++ e))
  | .ok routerResources =>
  match getNetworks s env pn with
  | .error e => some (.error ("failed to get networks: " ++ e))
  | .ok networkResources =>
  let acc := serverResources ++ volumeResources ++ floatingIPResources ++
    routerResources ++ networkResources
  let acc1 :=
    if s.hasLB then
      match getLoadBalancers s env pn with
      | .ok l => acc ++ l
      | .error _ => acc
    else acc
  match getVPNConnections s env pn with
  | none => none
  | some vpnOutcome =>
    let acc2 :=
      match vpnOutcome with
      | .ok l => acc1 ++ l
      | .error _ => acc1
    let acc3 :=
      if s.hasContainer then
        match getClusters s with
        | .ok l => acc2 ++ l
        | .error _ => acc2
      else acc2
    some (.ok
      { generatedAt := now
        projects := projects
        resources := acc3
        summary := calculateSummary acc3 projects.length })

/-- `collectResourcesForProjectsWithProgress`: identical resource flow to
`collectResourcesForProjects`, with progress events interleaved (the
events never affect the produced report). -/
def collectResourcesForProjectsWithProgress (s : Session) (env : Env)
    (now : Nat) (projects : List Project) (pn : List (String × String)) :
    Option (Except Err ResourceReport) :=
  match getServers s env pn with
  | .error e => some (.error ("failed to get servers: " ++ e))
  | .ok serverResources =>
  match getVolumes s env pn with
  | .error e => some (.error ("failed to get volumes: " ++ e))
  | .ok volumeResources =>
  match getFloatingIPs s env pn with
  | .error e => some (.error ("failed to get floating IPs: " ++ e))
  | .ok floatingIPResources =>
  match getRouters s env pn with
  | .error e => some (.error ("failed to get routers: " ++ e))
  | .ok routerResources =>
  match getNetworks s env pn with
  | .error e => some (.error ("failed to get networks: " ++ e))
  | .ok networkResources =>
  let acc := serverResources ++ volumeResources ++ floatingIPResources ++
    routerResources ++ networkResources
  let acc1 :=
    if s.hasLB then
      match getLoadBalancers s env pn with
      | .ok l => acc ++ l
      | .error _ => acc
    else acc
  match getVPNConnections s env pn with
  | none => none
  | some vpnOutcome =>
    let acc2 :=
      match vpnOutcome with
      | .ok l => acc1 ++ l
      | .error _ => acc1
    let acc3 :=
      if s.hasContainer then
        match getClusters s with
        | .ok l => acc2 ++ l
        | .error _ => acc2
      else acc2
    some (.ok
      { generatedAt := now
        projects := projects
        resources := acc3
        summary := calculateSummary acc3 projects.length })

/-- Append a collector's result when it succeeded, keep the accumulator
when it errored (`if err == nil { resources = append(resources, …) }`). -/
def okOr (acc : List Resource) (res : Except Err (List Resource)) :
    List Resource :=
  match res with
  | .ok l => acc ++ l
  | .error _ => acc

/-- `getResourcesForProject`: authenticate a dedicated client for the
project, then run every collector, skipping any that errors; a VPN-name
panic (`none`) propagates. -/
def getResourcesForProject (w : World) (project : Project) :
    Option (Except Err (List Resource)) :=
  match w.perProject project.name with
  | .error e =>
    some (.error ("failed to create client for project " ++ project.name ++ ": " ++ e))
  | .ok s =>
    let pn := [(project.id, project.name)]
    let r1 := okOr [] (getServersForSingleProject s pn)
    let r2 := okOr r1 (getVolumesForSingleProject s pn)
    let r3 := okOr r2 (getFloatingIPs s w.env pn)
    let r4 := okOr r3 (getRouters s w.env pn)
    let r5 := okOr r4 (getNetworks s w.env pn)
    let r6 := if s.hasLB then okOr r5 (getLoadBalancers s w.env pn) else r5
    match getVPNConnections s w.env pn with
    | none => none
    | some vpnOutcome =>
      let r7 := okOr r6 vpnOutcome
      let r8 := if s.hasContainer then okOr r7 (getClusters s) else r7
      some (.ok r8)

/-- `getResourcesForProjectWithProgress`: identical resource flow to
`getResourcesForProject`, with progress events interleaved. -/
def getResourcesForProjectWithProgress (w : World) (project : Project) :
    Option (Except Err (List Resource)) :=
  match w.perProject project.name with
  | .error e =>
    some (.error ("failed to create client for project " ++ project.name ++ ": " ++ e))
  | .ok s =>
    let pn := [(project.id, project.name)]
    let r1 := okOr [] (getServersForSingleProject s pn)
    let r2 := okOr r1 (getVolumesForSingleProject s pn)
    let r3 := okOr r2 (getFloatingIPs s w.env pn)
    let r4 := okOr r3 (getRouters s w.env pn)
    let r5 := okOr r4 (getNetworks s w.env pn)
    let r6 := if s.hasLB then okOr r5 (getLoadBalancers s w.env pn) else r5
    match getVPNConnections s w.env pn with
    | none => none
    | some vpnOutcome =>
      let r7 := okOr r6 vpnOutcome
      let r8 := if s.hasContainer then okOr r7 (getClusters s) else r7
      some (.ok r8)

/-- The multi-project loop of `GetAllResources`: collect per project,
skipping a project whose collection errors (`continue`); a panic
propagates. -/
def collectProjectsLoop (w : World) : List Project → Option (List Resource)
  | [] => some []
  | p :: rest =>
    match getResourcesForProject w p with
    | none => none
    | some (.error _) => collectProjectsLoop w rest
    | some (.ok rs) =>
      match collectProjectsLoop w rest with
      | none => none
      | some acc => some (rs ++ acc)

/-- The multi-project loop of `GetAllResourcesWithProgress`. -/
def collectProjectsLoopWP (w : World) : List Project → Option (List Resource)
  | [] => some []
  | p :: rest =>
    match getResourcesForProjectWithProgress w p with
    | none => none
    | some (.error _) => collectProjectsLoopWP w rest
    | some (.ok rs) =>
      match collectProjectsLoopWP w rest with
      | none => none
      | some acc => some (rs ++ acc)

/-- The report `GetAllResources` assembles after its multi-project loop. -/
def mkMultiReport (w : World) (ps : List Project) (rs : List Resource) :
    ResourceReport :=
  { generatedAt := w.now
    projects := ps
    resources := rs
    summary := calculateSummary rs ps.length }

/-- The scope-discovery phase shared by `GetAllResources` and
`GetAllResourcesWithProgress` (their lines differ only in logging):
domain-scoped API listing, then the CLI fallback, then the inferred
current project; an error is reported only when all three fail. -/
def resolveProjects (w : World) : Except Err (List Project) :=
  match w.apiProjects with
  | .ok ps => .ok ps
  | .error _ =>
    match w.cliProjects with
    | .ok ps => .ok ps
    | .error e2 =>
      match getCurrentProject w.shared w.env with
      | .ok current => .ok [current]
      | .error _ => .error ("failed to get projects: " ++ e2)

/-- `GetAllResources`: single-project mode when `OS_PROJECT_NAME` is set
(after trimming), otherwise discovery with the API → CLI → current-project
fallback chain followed by the per-project collection loop.  The outer
`Option` is Go panic propagation. -/
def GetAllResources (w : World) : Option (Except Err ResourceReport) :=
  if trimSpace w.env.osProjectName != "" then
    match getCurrentProject w.shared w.env with
    | .error e => some (.error ("failed to get current project: " ++ e))
    | .ok current =>
      collectResourcesForProjects w.shared w.env w.now [current]
        [(current.id, current.name)]
  else
    match w.apiProjects with
    | .ok allProjects =>
      (collectProjectsLoop w allProjects).map fun rs =>
        .ok (mkMultiReport w allProjects rs)
    | .error _ =>
      match w.cliProjects with
      | .ok allProjects =>
        (collectProjectsLoop w allProjects).map fun rs =>
          .ok (mkMultiReport w allProjects rs)
      | .error e2 =>
        match getCurrentProject w.shared w.env with
        | .error _ => some (.error ("failed to get projects: " ++ e2))
        | .ok current =>
          collectResourcesForProjects w.shared w.env w.now [current]
            [(current.id, current.name)]

/-- `GetAllResourcesWithProgress`: same control flow as
`GetAllResources`, emitting progress events along the way. -/
def GetAllResourcesWithProgress (w : World) : Option (Except Err ResourceReport) :=
  if trimSpace w.env.osProjectName != "" then
    match getCurrentProject w.shared w.env with
    | .error e => some (.error ("failed to get current project: " ++ e))
    | .ok current =>
      collectResourcesForProjectsWithProgress w.shared w.env w.now [current]
        [(current.id, current.name)]
  else
    match w.apiProjects with
    | .ok allProjects =>
      (collectProjectsLoopWP w allProjects).map fun rs =>
        .ok (mkMultiReport w allProjects rs)
    | .error _ =>
      match w.cliProjects with
      | .ok allProjects =>
        (collectProjectsLoopWP w allProjects).map fun rs =>
          .ok (mkMultiReport w allProjects rs)
      | .error e2 =>
        match getCurrentProject w.shared w.env with
        | .error _ => some (.error ("failed to get projects: " ++ e2))
        | .ok current =>
          collectResourcesForProjectsWithProgress w.shared w.env w.now [current]
            [(current.id, current.name)]

/-! ## Snapshot store (`internal/storage`)

The file system is an association list from path to file data; the
`encoding/json` marshal/unmarshal pair is modelled by the `FileData`
constructor (an external collaborator whose round trip the store relies
on; a `raw` file is anything that does not unmarshal into a report). -/

/-- Content of one file in the data directory. -/
inductive FileData where
  | reportData (r : ResourceReport)
  | raw (s : String)
  deriving Repr, DecidableEq

/-- The data directory (`filepath.Join(dataDir, reportFile)`). -/
def reportPath : String := "data/openstack_report.json"

/-- The backup path `SaveReport` renames an existing snapshot to:
`data/backup_<unix>_openstack_report.json`. -/
def backupPath (t : Nat) : String :=
  "data/backup_" ++ (toString t ++ "_openstack_report.json")

/-- A file system: association list from path to contents. -/
structure FS where
  files : List (String × FileData)
  deriving Repr, DecidableEq

/-- Read a file (`os.ReadFile` / `os.Stat`). -/
def fsGet (fs : FS) (path : String) : Option FileData :=
  match fs.files.find? (fun e => e.1 == path) with
  | some e => some e.2
  | none => none

/-- Write/replace a file (`os.WriteFile`, or the target of `os.Rename`). -/
def fsSet (fs : FS) (path : String) (d : FileData) : FS :=
  ⟨(path, d) :: fs.files.filter (fun e => e.1 != path)⟩

/-- Remove a file (the source of `os.Rename`). -/
def fsRemove (fs : FS) (path : String) : FS :=
  ⟨fs.files.filter (fun e => e.1 != path)⟩

/-- `Storage.SaveReport` at Unix time `t`: if a snapshot exists, rename it
to a timestamped backup, then marshal and write the new report. -/
def SaveReport (fs : FS) (t : Nat) (report : ResourceReport) : FS :=
  let fs1 :=
    match fsGet fs reportPath with
    | some old => fsSet (fsRemove fs reportPath) (backupPath t) old
    | none => fs
  fsSet fs1 reportPath (.reportData report)

/-- `Storage.LoadReport`: read and unmarshal the snapshot; a missing file
is `no saved report found`. -/
def LoadReport (fs : FS) : Except Err ResourceReport :=
  match fsGet fs reportPath with
  | none => .error "no saved report found"
  | some (.reportData r) => .ok r
  | some (.raw _) => .error "failed to unmarshal report"

/-! ## Progress reporter -/

/-- `ProgressMessage` (steps and counts are Go `int`s). -/
structure ProgressMessage where
  type : String
  message : String
  currentStep : Int
  totalSteps : Int
  project : String
  resourceType : String
  count : Int
  summary : List (String × Int)
  deriving Repr, DecidableEq

/-- A buffered Go channel as its sink-side state: capacity plus the
messages currently buffered and not yet consumed. -/
structure BufChan where
  capacity : Nat
  buffered : List ProgressMessage
  deriving Repr, DecidableEq

/-- A non-blocking send (`select { case ch <- msg: default: }`) cannot
deliver exactly when the buffer is full and no receiver is ready. -/
def chanFull (ch : BufChan) : Bool :=
  ch.capacity ≤ ch.buffered.length

/-- `ChannelProgressReporter`: holds a possibly nil channel. -/
structure ChannelProgressReporter where
  progressChan : Option BufChan
  deriving Repr, DecidableEq

/-- `SendProgress`: return immediately on a nil channel; otherwise build
the message and offer it with `select`/`default`, dropping it silently
when the channel cannot accept it.  Totality of this function is the
non-blocking guarantee: every call returns. -/
def SendProgress (r : ChannelProgressReporter) (msgType message : String)
    (currentStep totalSteps : Int) (project resourceType : String)
    (count : Int) (summary : List (String × Int)) : ChannelProgressReporter :=
  match r.progressChan with
  | none => r
  | some ch =>
    let progressMsg : ProgressMessage :=
      { type := msgType
        message := message
        currentStep := currentStep
        totalSteps := totalSteps
        project := project
        resourceType := resourceType
        count := count
        summary := summary }
    if chanFull ch then r
    else ⟨some ⟨ch.capacity, ch.buffered ++ [progressMsg]⟩⟩

/-! ## Summary counting lemmas -/

theorem bump_totalServers (acc : Summary) (r : Resource) :
    (bumpSummary acc r).totalServers =
      acc.totalServers + (if r.type == "server" then 1 else 0) := by
  simp only [bumpSummary]
  repeat' split
  all_goals first | rfl | simp_all

theorem bump_totalVolumes (acc : Summary) (r : Resource) :
    (bumpSummary acc r).totalVolumes =
      acc.totalVolumes + (if r.type == "volume" then 1 else 0) := by
  simp only [bumpSummary]
  repeat' split
  all_goals first | rfl | simp_all

theorem bump_totalLoadBalancers (acc : Summary) (r : Resource) :
    (bumpSummary acc r).totalLoadBalancers =
      acc.totalLoadBalancers + (if r.type == "load_balancer" then 1 else 0) := by
  simp only [bumpSummary]
  repeat' split
  all_goals first | rfl | simp_all

theorem bump_totalFloatingIPs (acc : Summary) (r : Resource) :
    (bumpSummary acc r).totalFloatingIPs =
      acc.totalFloatingIPs + (if r.type == "floating_ip" then 1 else 0) := by
  simp only [bumpSummary]
  repeat' split
  all_goals first | rfl | simp_all

theorem bump_totalVPNServices (acc : Summary) (r : Resource) :
    (bumpSummary acc r).totalVPNServices =
      acc.totalVPNServices + (if r.type == "vpn_service" then 1 else 0) := by
  simp only [bumpSummary]
  repeat' split
  all_goals first | rfl | simp_all

theorem bump_totalClusters (acc : Summary) (r : Resource) :
    (bumpSummary acc r).totalClusters =
      acc.totalClusters + (if r.type == "cluster" then 1 else 0) := by
  simp only [bumpSummary]
  repeat' split
  all_goals first | rfl | simp_all

theorem bump_totalRouters (acc : Summary) (r : Resource) :
    (bumpSummary acc r).totalRouters =
      acc.totalRouters + (if r.type == "router" then 1 else 0) := by
  simp only [bumpSummary]
  repeat' split
  all_goals first | rfl | simp_all

theorem bump_totalNetworks (acc : Summary) (r : Resource) :
    (bumpSummary acc r).totalNetworks =
      acc.totalNetworks + (if r.type == "network" then 1 else 0) := by
  simp only [bumpSummary]
  repeat' split
  all_goals first | rfl | simp_all

theorem foldl_bump_totalServers (rs : List Resource) : ∀ acc : Summary,
    (rs.foldl bumpSummary acc).totalServers =
      acc.totalServers + (rs.filter fun r => r.type == "server").length := by
  induction rs with
  | nil => intro acc; simp
  | cons r rest ih =>
    intro acc
    rw [List.foldl_cons, ih, bump_totalServers, List.filter_cons]
    split <;> simp <;> omega

theorem foldl_bump_totalVolumes (rs : List Resource) : ∀ acc : Summary,
    (rs.foldl bumpSummary acc).totalVolumes =
      acc.totalVolumes + (rs.filter fun r => r.type == "volume").length := by
  induction rs with
  | nil => intro acc; simp
  | cons r rest ih =>
    intro acc
    rw [List.foldl_cons, ih, bump_totalVolumes, List.filter_cons]
    split <;> simp <;> omega

theorem foldl_bump_totalLoadBalancers (rs : List Resource) : ∀ acc : Summary,
    (rs.foldl bumpSummary acc).totalLoadBalancers =
      acc.totalLoadBalancers + (rs.filter fun r => r.type == "load_balancer").length := by
  induction rs with
  | nil => intro acc; simp
  | cons r rest ih =>
    intro acc
    rw [List.foldl_cons, ih, bump_totalLoadBalancers, List.filter_cons]
    split <;> simp <;> omega

theorem foldl_bump_totalFloatingIPs (rs : List Resource) : ∀ acc : Summary,
    (rs.foldl bumpSummary acc).totalFloatingIPs =
      acc.totalFloatingIPs + (rs.filter fun r => r.type == "floating_ip").length := by
  induction rs with
  | nil => intro acc; simp
  | cons r rest ih =>
    intro acc
    rw [List.foldl_cons, ih, bump_totalFloatingIPs, List.filter_cons]
    split <;> simp <;> omega

theorem foldl_bump_totalVPNServices (rs : List Resource) : ∀ acc : Summary,
    (rs.foldl bumpSummary acc).totalVPNServices =
      acc.totalVPNServices + (rs.filter fun r => r.type == "vpn_service").length := by
  induction rs with
  | nil => intro acc; simp
  | cons r rest ih =>
    intro acc
    rw [List.foldl_cons, ih, bump_totalVPNServices, List.filter_cons]
    split <;> simp <;> omega

theorem foldl_bump_totalClusters (rs : List Resource) : ∀ acc : Summary,
    (rs.foldl bumpSummary acc).totalClusters =
      acc.totalClusters + (rs.filter fun r => r.type == "cluster").length := by
  induction rs with
  | nil => intro acc; simp
  | cons r rest ih =>
    intro acc
    rw [List.foldl_cons, ih, bump_totalClusters, List.filter_cons]
    split <;> simp <;> omega

theorem foldl_bump_totalRouters (rs : List Resource) : ∀ acc : Summary,
    (rs.foldl bumpSummary acc).totalRouters =
      acc.totalRouters + (rs.filter fun r => r.type == "router").length := by
  induction rs with
  | nil => intro acc; simp
  | cons r rest ih =>
    intro acc
    rw [List.foldl_cons, ih, bump_totalRouters, List.filter_cons]
    split <;> simp <;> omega

theorem foldl_bump_totalNetworks (rs : List Resource) : ∀ acc : Summary,
    (rs.foldl bumpSummary acc).totalNetworks =
      acc.totalNetworks + (rs.filter fun r => r.type == "network").length := by
  induction rs with
  | nil => intro acc; simp
  | cons r rest ih =>
    intro acc
    rw [List.foldl_cons, ih, bump_totalNetworks, List.filter_cons]
    split <;> simp <;> omega

/-- A report's summary gives, for every type of the closed resource-type
set, exactly the number of resources of that type in the report. -/
def summaryConsistent (rep : ResourceReport) : Prop :=
  rep.summary.totalServers = (rep.resources.filter fun r => r.type == "server").length ∧
  rep.summary.totalVolumes = (rep.resources.filter fun r => r.type == "volume").length ∧
  rep.summary.totalLoadBalancers = (rep.resources.filter fun r => r.type == "load_balancer").length ∧
  rep.summary.totalFloatingIPs = (rep.resources.filter fun r => r.type == "floating_ip").length ∧
  rep.summary.totalVPNServices = (rep.resources.filter fun r => r.type == "vpn_service").length ∧
  rep.summary.totalClusters = (rep.resources.filter fun r => r.type == "cluster").length ∧
  rep.summary.totalRouters = (rep.resources.filter fun r => r.type == "router").length ∧
  rep.summary.totalNetworks = (rep.resources.filter fun r => r.type == "network").length

theorem calculateSummary_consistent (rs : List Resource) (n : Nat) (rep : ResourceReport)
    (hres : rep.resources = rs) (hsum : rep.summary = calculateSummary rs n) :
    summaryConsistent rep := by
  subst hres
  refine ⟨?_, ?_, ?_, ?_, ?_, ?_, ?_, ?_⟩ <;>
    rw [hsum, calculateSummary] <;>
    simp [foldl_bump_totalServers, foldl_bump_totalVolumes,
      foldl_bump_totalLoadBalancers, foldl_bump_totalFloatingIPs,
      foldl_bump_totalVPNServices, foldl_bump_totalClusters,
      foldl_bump_totalRouters, foldl_bump_totalNetworks]

theorem collectResourcesForProjects_summary (s : Session) (env : Env)
    (now : Nat) (ps : List Project) (pn : List (String × String))
    (rep : ResourceReport)
    (h : collectResourcesForProjects s env now ps pn = some (.ok rep)) :
    rep.summary = calculateSummary rep.resources rep.projects.length := by
  unfold collectResourcesForProjects at h
  repeat' split at h
  all_goals try simp_all
  all_goals subst h
  all_goals rfl

theorem collectResourcesForProjectsWithProgress_summary (s : Session)
    (env : Env) (now : Nat) (ps : List Project) (pn : List (String × String))
    (rep : ResourceReport)
    (h : collectResourcesForProjectsWithProgress s env now ps pn = some (.ok rep)) :
    rep.summary = calculateSummary rep.resources rep.projects.length := by
  unfold collectResourcesForProjectsWithProgress at h
  repeat' split at h
  all_goals try simp_all
  all_goals subst h
  all_goals rfl

theorem getAllResources_summary (w : World) (rep : ResourceReport)
    (h : GetAllResources w = some (.ok rep)) :
    rep.summary = calculateSummary rep.resources rep.projects.length := by
  unfold GetAllResources at h
  split at h
  · split at h
    · simp_all
    · exact collectResourcesForProjects_summary _ _ _ _ _ _ h
  · split at h
    · rename_i allProjects _
      rcases hl : collectProjectsLoop w allProjects with _ | rs <;>
        rw [hl] at h <;> simp_all [mkMultiReport] <;> (subst h; rfl)
    · split at h
      · rename_i allProjects _
        rcases hl : collectProjectsLoop w allProjects with _ | rs <;>
          rw [hl] at h <;> simp_all [mkMultiReport] <;> (subst h; rfl)
      · split at h
        · simp_all
        · exact collectResourcesForProjects_summary _ _ _ _ _ _ h

theorem getAllResourcesWithProgress_summary (w : World) (rep : ResourceReport)
    (h : GetAllResourcesWithProgress w = some (.ok rep)) :
    rep.summary = calculateSummary rep.resources rep.projects.length := by
  unfold GetAllResourcesWithProgress at h
  split at h
  · split at h
    · simp_all
    · exact collectResourcesForProjectsWithProgress_summary _ _ _ _ _ _ h
  · split at h
    · rename_i allProjects _
      rcases hl : collectProjectsLoopWP w allProjects with _ | rs <;>
        rw [hl] at h <;> simp_all [mkMultiReport] <;> (subst h; rfl)
    · split at h
      · rename_i allProjects _
        rcases hl : collectProjectsLoopWP w allProjects with _ | rs <;>
          rw [hl] at h <;> simp_all [mkMultiReport] <;> (subst h; rfl)
      · split at h
        · simp_all
        · exact collectResourcesForProjectsWithProgress_summary _ _ _ _ _ _ h

/-- C1: For every Report produced by GetAllResources /
GetAllResourcesWithProgress, and for every resource type T in the closed
type set (server, volume, load_balancer, floating_ip, vpn_service,
cluster, router, network), the per-type count stored in Report.Summary
equals the number of elements r in Report.Resources with r.Type == T. -/
theorem c1_summary_consistency (w : World) (rep₁ rep₂ : ResourceReport)
    (h₁ : GetAllResources w = some (.ok rep₁))
    (h₂ : GetAllResourcesWithProgress w = some (.ok rep₂)) :
    summaryConsistent rep₁ ∧ summaryConsistent rep₂ :=
  ⟨calculateSummary_consistent rep₁.resources rep₁.projects.length rep₁ rfl
      (getAllResources_summary w rep₁ h₁),
    calculateSummary_consistent rep₂.resources rep₂.projects.length rep₂ rfl
      (getAllResourcesWithProgress_summary w rep₂ h₂)⟩
/-- A session whose every list call succeeds with the empty list and whose
lookup calls all fail. -/
def emptySession : Session where
  now := 0
  hasAuthResult := true
  hasLB := false
  hasContainer := false
  serversPages := fun _ => .ok (.ok [])
  volumesPages := fun _ => .ok (.ok [])
  fipsList := .ok []
  routersList := .ok []
  networksList := .ok []
  lbList := .ok []
  vpnConnsPages := .ok (.ok [])
  flavorGet := fun _ => .error "down"
  serverGet := fun _ => .error "down"
  portGet := fun _ => .error "down"
  projGet := fun _ => .error "down"
  subnetsFor := fun _ => .error "down"

def sampleWorldSingle : World where
  env := { osProjectName := "alpha", osProjectID := "" }
  now := 7
  shared := emptySession
  apiProjects := .error "api down"
  cliProjects := .error "cli down"
  perProject := fun _ => .ok emptySession

def c1Report : ResourceReport :=
  { generatedAt := 7
    projects := [⟨"current-project", "alpha", "Current working project", "", true⟩]
    resources := []
    summary := ⟨1, 0, 0, 0, 0, 0, 0, 0, 0⟩ }

example : GetAllResources sampleWorldSingle = some (.ok c1Report) := rfl
example : GetAllResourcesWithProgress sampleWorldSingle = some (.ok c1Report) := rfl

theorem c1_summary_consistency_witness :
    summaryConsistent c1Report ∧ summaryConsistent c1Report :=
  c1_summary_consistency sampleWorldSingle c1Report c1Report rfl rfl

/-! ## Snapshot store lemmas -/

theorem backupPath_ne_reportPath (t : Nat) : backupPath t ≠ reportPath := by
  intro h
  have h' := congrArg String.data h
  simp [backupPath, reportPath, String.data_append] at h'

theorem fsGet_fsSet_same (fs : FS) (p : String) (d : FileData) :
    fsGet (fsSet fs p d) p = some d := by
  simp [fsGet, fsSet, List.find?_cons]

theorem find?_filter_ne (l : List (String × FileData)) (p q : String)
    (hne : q ≠ p) :
    (l.filter (fun e => e.1 != p)).find? (fun e => e.1 == q) =
      l.find? (fun e => e.1 == q) := by
  have hqp : (q == p) = false := by simpa using hne
  have hpq : (p == q) = false := by simpa using Ne.symm hne
  induction l with
  | nil => rfl
  | cons e rest ih =>
    by_cases hp : e.1 = p
    · simp [List.filter_cons, hp, List.find?_cons, hqp, hpq, ih]
    · by_cases hq : e.1 = q
      · simp [List.filter_cons, hp, List.find?_cons, hq, hne]
      · simp [List.filter_cons, hp, List.find?_cons, hq, ih]

theorem fsGet_fsSet_ne (fs : FS) (p q : String) (d : FileData)
    (hne : q ≠ p) : fsGet (fsSet fs p d) q = fsGet fs q := by
  have hpq : (p == q) = false := by
    simp
    exact fun hqp => hne hqp.symm
  simp [fsGet, fsSet, List.find?_cons, hpq, find?_filter_ne fs.files p q hne]

theorem loadReport_fsSet (fs2 : FS) (r : ResourceReport) :
    LoadReport (fsSet fs2 reportPath (.reportData r)) = .ok r := by
  unfold LoadReport
  rw [fsGet_fsSet_same]

theorem loadReport_saveReport (fs : FS) (t : Nat) (r : ResourceReport) :
    LoadReport (SaveReport fs t r) = .ok r := by
  unfold SaveReport
  exact loadReport_fsSet _ r

theorem fsGet_saveReport_backup (fs : FS) (t : Nat) (B A : ResourceReport)
    (h : fsGet fs reportPath = some (.reportData A)) :
    fsGet (SaveReport fs t B) (backupPath t) = some (.reportData A) := by
  unfold SaveReport
  rw [h]
  show fsGet (fsSet (fsSet (fsRemove fs reportPath) (backupPath t)
    (.reportData A)) reportPath (.reportData B)) (backupPath t) =
      some (.reportData A)
  rw [fsGet_fsSet_ne _ _ _ _ (backupPath_ne_reportPath t)]
  exact fsGet_fsSet_same _ _ _

/-- C2: For every report A and B: after SaveReport(A) followed by
SaveReport(B), LoadReport() returns a Report equal to B in all fields,
and a backup file containing A exists (SaveReport moves any pre-existing
snapshot to a backup file instead of losing it); in general
LoadReport(SaveReport(report)) reproduces a Report equal to the original
in all fields. -/
theorem c2_snapshot_round_trip (fs : FS) (t₁ t₂ : Nat) (A B : ResourceReport) :
    LoadReport (SaveReport (SaveReport fs t₁ A) t₂ B) = .ok B ∧
    fsGet (SaveReport (SaveReport fs t₁ A) t₂ B) (backupPath t₂) =
      some (.reportData A) ∧
    ∀ (fs' : FS) (t : Nat) (r : ResourceReport),
      LoadReport (SaveReport fs' t r) = .ok r := by
  refine ⟨loadReport_saveReport _ _ _, ?_, fun fs' t r => loadReport_saveReport fs' t r⟩
  have hA : fsGet (SaveReport fs t₁ A) reportPath = some (.reportData A) := by
    unfold SaveReport
    exact fsGet_fsSet_same _ _ _
  exact fsGet_saveReport_backup _ t₂ B A hA

/-! ## Progress reporter claims -/

/-- C9: The progress reporter never blocks the aggregator: for every call
to ChannelProgressReporter.SendProgress, if the underlying channel is nil
or cannot immediately accept the event (sink saturated or no longer
listening), the event is dropped silently and the call returns, so
collection is never stalled by progress delivery.  (The non-blocking
`select`/`default` send is embedded as a total function on the channel
state, so every call returns by construction; the three conjuncts
characterize the nil-drop, the saturated-drop and the successful
delivery.) -/
theorem c9_send_progress_nonblocking (r : ChannelProgressReporter)
    (msgType message : String) (currentStep totalSteps : Int)
    (project resourceType : String) (count : Int)
    (summary : List (String × Int)) :
    (r.progressChan = none →
      SendProgress r msgType message currentStep totalSteps project
        resourceType count summary = r) ∧
    (∀ ch, r.progressChan = some ch → chanFull ch = true →
      SendProgress r msgType message currentStep totalSteps project
        resourceType count summary = r) ∧
    (∀ ch, r.progressChan = some ch → chanFull ch = false →
      SendProgress r msgType message currentStep totalSteps project
        resourceType count summary =
        ⟨some ⟨ch.capacity, ch.buffered ++
          [{ type := msgType
             message := message
             currentStep := currentStep
             totalSteps := totalSteps
             project := project
             resourceType := resourceType
             count := count
             summary := summary }]⟩⟩) := by
  refine ⟨fun h => ?_, fun ch h hf => ?_, fun ch h hnf => ?_⟩ <;>
    simp [SendProgress, h] <;> simp_all

theorem c9_send_progress_nonblocking_witness :
    SendProgress ⟨none⟩ "start" "m" 0 0 "" "" 0 [] = ⟨none⟩ ∧
    SendProgress ⟨some ⟨0, []⟩⟩ "start" "m" 0 0 "" "" 0 [] = ⟨some ⟨0, []⟩⟩ ∧
    SendProgress ⟨some ⟨1, []⟩⟩ "start" "m" 0 0 "" "" 0 [] =
      ⟨some ⟨1, [{ type := "start", message := "m", currentStep := 0,
                   totalSteps := 0, project := "", resourceType := "",
                   count := 0, summary := [] }]⟩⟩ :=
  ⟨(c9_send_progress_nonblocking ⟨none⟩ "start" "m" 0 0 "" "" 0 []).1 rfl,
   (c9_send_progress_nonblocking ⟨some ⟨0, []⟩⟩ "start" "m" 0 0 "" "" 0 []).2.1
     ⟨0, []⟩ rfl rfl,
   (c9_send_progress_nonblocking ⟨some ⟨1, []⟩⟩ "start" "m" 0 0 "" "" 0 []).2.2
     ⟨1, []⟩ rfl rfl⟩

/-! ## VPN connection name derivation (C10) -/

theorem vpnConnName_isSome (c : RawVPNConn)
    (h : c.name = "" → 8 ≤ c.id.length) : ∃ nm, vpnConnName c = some nm := by
  unfold vpnConnName
  by_cases hn : c.name = ""
  · have hlen := h hn
    refine ⟨"vpn-connection-" ++ c.id.take 8, ?_⟩
    simp [hn, hlen]
  · refine ⟨c.name, ?_⟩
    simp [hn]

theorem vpnConnName_short (c : RawVPNConn) (hname : c.name = "")
    (hshort : c.id.length < 8) : vpnConnName c = none := by
  unfold vpnConnName
  simp [hname, Nat.not_le.mpr hshort]

theorem normalizeVPNConns_total (s : Session) (current : Project)
    (pn : List (String × String)) (l : List RawVPNConn)
    (h : ∀ c ∈ l, c.name = "" → 8 ≤ c.id.length) :
    ∃ rs, normalizeVPNConns s current pn l = some rs := by
  induction l with
  | nil => exact ⟨[], rfl⟩
  | cons c rest ih =>
    obtain ⟨nm, hnm⟩ := vpnConnName_isSome c (h c (List.mem_cons_self c rest))
    obtain ⟨rs, hrs⟩ := ih (fun d hd => h d (List.mem_cons_of_mem c hd))
    exact ⟨mkVPNResource s current pn c nm :: rs, by
      simp [normalizeVPNConns, hnm, hrs]⟩

theorem normalizeVPNConns_panic (s : Session) (current : Project)
    (pn : List (String × String)) (l : List RawVPNConn) (c : RawVPNConn)
    (hc : c ∈ l) (hname : c.name = "") (hshort : c.id.length < 8) :
    normalizeVPNConns s current pn l = none := by
  induction l with
  | nil => cases hc
  | cons d rest ih =>
    rcases List.mem_cons.mp hc with hdc | hmem
    · subst hdc
      simp [normalizeVPNConns, vpnConnName_short c hname hshort]
    · unfold normalizeVPNConns
      rcases hv : vpnConnName d with _ | nm
      · rfl
      · rw [ih hmem]

/-- C10: In getVPNConnections, every fetched VPN site connection whose
Name is empty is given a synthetic display name built from the first 8
characters of its ID; this name derivation (and hence the whole
collector) is total only under the precondition that every such
connection's ID has length at least 8 — for a connection with empty Name
and an ID shorter than 8 characters the indexing is out of bounds
(a panic, modelled by `none`). -/
theorem c10_vpn_name_bounds (s : Session) (env : Env)
    (pn : List (String × String)) (l : List RawVPNConn)
    (hl : s.vpnConnsPages = .ok (.ok l)) :
    ((∀ c ∈ l, c.name = "" → 8 ≤ c.id.length) →
      ∃ res, getVPNConnections s env pn = some (.ok res)) ∧
    (∀ c ∈ l, c.name = "" → c.id.length < 8 →
      getVPNConnections s env pn = none) ∧
    (∀ c : RawVPNConn, c.name = "" → 8 ≤ c.id.length →
      vpnConnName c = some ("vpn-connection-" ++ c.id.take 8)) := by
  refine ⟨fun h => ?_, fun c hc hname hshort => ?_, fun c hname hlen => ?_⟩
  · obtain ⟨rs, hrs⟩ :=
      normalizeVPNConns_total s (currentProjectOrZero s env) pn l h
    exact ⟨rs, by simp [getVPNConnections, hl, hrs]⟩
  · simp [getVPNConnections, hl,
      normalizeVPNConns_panic s (currentProjectOrZero s env) pn l c hc hname hshort]
  · simp [vpnConnName, hname, hlen]

def c10SessionOK : Session :=
  { emptySession with
      vpnConnsPages := .ok (.ok
        [{ id := "abcdefgh", name := "", description := "", status := "UP",
           tenantID := "t1", vpnServiceID := "v1", peerID := "p",
           peerAddress := "1.2.3.4", authMode := "psk", mtu := 1500 }]) }

def c10SessionBad : Session :=
  { emptySession with
      vpnConnsPages := .ok (.ok
        [{ id := "abc", name := "", description := "", status := "UP",
           tenantID := "t1", vpnServiceID := "v1", peerID := "p",
           peerAddress := "1.2.3.4", authMode := "psk", mtu := 1500 }]) }

theorem c10_vpn_name_bounds_witness :
    (∃ res, getVPNConnections c10SessionOK sampleWorldSingle.env [] =
      some (.ok res)) ∧
    getVPNConnections c10SessionBad sampleWorldSingle.env [] = none :=
  ⟨(c10_vpn_name_bounds c10SessionOK sampleWorldSingle.env [] _ rfl).1
      (by decide),
   (c10_vpn_name_bounds c10SessionBad sampleWorldSingle.env [] _ rfl).2.1
      _ (List.mem_cons_self _ _) rfl (by decide)⟩

/-! ## Scope discovery claims (C3, C5) -/

theorem collectResourcesForProjects_projects (s : Session) (env : Env)
    (now : Nat) (ps : List Project) (pn : List (String × String))
    (rep : ResourceReport)
    (h : collectResourcesForProjects s env now ps pn = some (.ok rep)) :
    rep.projects = ps := by
  unfold collectResourcesForProjects at h
  repeat' split at h
  all_goals try simp_all
  all_goals subst h
  all_goals rfl

/-- C3: Given valid base credentials, if the primary (domain-scoped API)
scope discovery fails and the CLI fallback also fails, scope resolution
still returns at least one scope (the inferred current scope): the
discovery phase of GetAllResources never yields an empty scope list and
never returns an error in that situation.  (Valid base credentials =
`getCurrentProject` succeeds, which holds whenever the shared client has
an authentication result.) -/
theorem c3_scope_fallback (w : World) (p : Project) (e₁ e₂ : Err)
    (hmode : trimSpace w.env.osProjectName = "")
    (hapi : w.apiProjects = .error e₁)
    (hcli : w.cliProjects = .error e₂)
    (hcur : getCurrentProject w.shared w.env = .ok p) :
    resolveProjects w = .ok [p] ∧ [p] ≠ [] ∧
    (∀ rep, GetAllResources w = some (.ok rep) → rep.projects = [p]) := by
  refine ⟨?_, by simp, fun rep hrep => ?_⟩
  · simp [resolveProjects, hapi, hcli, hcur]
  · unfold GetAllResources at hrep
    rw [if_neg (by simp [hmode])] at hrep
    rw [hapi, hcli, hcur] at hrep
    exact collectResourcesForProjects_projects _ _ _ _ _ _ hrep

def sampleWorldFallback : World where
  env := { osProjectName := "", osProjectID := "" }
  now := 5
  shared := emptySession
  apiProjects := .error "api down"
  cliProjects := .error "cli down"
  perProject := fun _ => .ok emptySession

def fallbackProject : Project :=
  ⟨"current-project", "Current Project", "Current working project", "", true⟩

def c3Report : ResourceReport :=
  { generatedAt := 5
    projects := [fallbackProject]
    resources := []
    summary := ⟨1, 0, 0, 0, 0, 0, 0, 0, 0⟩ }

theorem c3_scope_fallback_witness :
    resolveProjects sampleWorldFallback = .ok [fallbackProject] ∧
    [fallbackProject] ≠ [] ∧ c3Report.projects = [fallbackProject] :=
  ⟨(c3_scope_fallback sampleWorldFallback fallbackProject "api down" "cli down"
      rfl rfl rfl rfl).1,
   (c3_scope_fallback sampleWorldFallback fallbackProject "api down" "cli down"
      rfl rfl rfl rfl).2.1,
   (c3_scope_fallback sampleWorldFallback fallbackProject "api down" "cli down"
      rfl rfl rfl rfl).2.2 c3Report rfl⟩

theorem getAllResources_projects (w : World) (rep : ResourceReport)
    (hmode : trimSpace w.env.osProjectName = "")
    (h : GetAllResources w = some (.ok rep)) :
    resolveProjects w = .ok rep.projects := by
  unfold GetAllResources at h
  rw [if_neg (by simp [hmode])] at h
  unfold resolveProjects
  rcases hapi : w.apiProjects with e | ps2 <;> simp only [hapi] at h ⊢
  · rcases hcli : w.cliProjects with e2 | qs <;> simp only [hcli] at h ⊢
    · rcases hcur : getCurrentProject w.shared w.env with e3 | p <;>
        simp only [hcur] at h ⊢
      · injection h with h1
        exact Except.noConfusion h1
      · rw [collectResourcesForProjects_projects _ _ _ _ _ _ h]
    · rcases hl : collectProjectsLoop w qs with _ | rs <;> rw [hl] at h
      · rw [Option.map_none'] at h
        exact Option.noConfusion h
      · simp only [Option.map_some', Option.some.injEq, Except.ok.injEq] at h
        subst h
        rfl
  · rcases hl : collectProjectsLoop w ps2 with _ | rs <;> rw [hl] at h
    · rw [Option.map_none'] at h
      exact Option.noConfusion h
    · simp only [Option.map_some', Option.some.injEq, Except.ok.injEq] at h
      subst h
      rfl

/-- C5: Scope discovery follows the ordered fallback chain and stops at
the first success: when no explicit single scope is configured, a
domain-scoped authenticated API listing is attempted first; the external
CLI identity tool is invoked only if the API listing fails (expressed
observationally: given a successful API listing the outcome is
independent of the CLI and current-project data); and only if both fail
is the single inferred current scope used — discovery itself never
aborts the whole run (it errors only when even the current-scope
inference fails, which cannot happen for an authenticated client). -/
theorem c5_discovery_chain (w : World) :
    (∀ ps, w.apiProjects = .ok ps → resolveProjects w = .ok ps) ∧
    (∀ e qs, w.apiProjects = .error e → w.cliProjects = .ok qs →
      resolveProjects w = .ok qs) ∧
    (∀ e e2 p, w.apiProjects = .error e → w.cliProjects = .error e2 →
      getCurrentProject w.shared w.env = .ok p →
      resolveProjects w = .ok [p]) ∧
    (∀ p, getCurrentProject w.shared w.env = .ok p →
      ∃ ps2, resolveProjects w = .ok ps2) ∧
    (∀ (w2 : World) ps, w.apiProjects = .ok ps → w2.apiProjects = .ok ps →
      resolveProjects w = resolveProjects w2) ∧
    (∀ (w2 : World) e e2 qs, w.apiProjects = .error e →
      w2.apiProjects = .error e2 → w.cliProjects = .ok qs →
      w2.cliProjects = .ok qs →
      resolveProjects w = resolveProjects w2) ∧
    (∀ ps rep, trimSpace w.env.osProjectName = "" →
      resolveProjects w = .ok ps → GetAllResources w = some (.ok rep) →
      rep.projects = ps) := by
  refine ⟨fun ps hapi => by simp [resolveProjects, hapi],
    fun e qs hapi hcli => by simp [resolveProjects, hapi, hcli],
    fun e e2 p hapi hcli hcur => by simp [resolveProjects, hapi, hcli, hcur],
    fun p hcur => ?_,
    fun w2 ps hapi hapi2 => by simp [resolveProjects, hapi, hapi2],
    fun w2 e e2 qs hapi hapi2 hcli hcli2 => by
      simp [resolveProjects, hapi, hapi2, hcli, hcli2],
    fun ps rep hmode hres hrep => ?_⟩
  · rcases hapi : w.apiProjects with e | ps2
    · rcases hcli : w.cliProjects with e2 | qs
      · exact ⟨[p], by simp [resolveProjects, hapi, hcli, hcur]⟩
      · exact ⟨qs, by simp [resolveProjects, hapi, hcli]⟩
    · exact ⟨ps2, by simp [resolveProjects, hapi]⟩
  · have h2 := getAllResources_projects w rep hmode hrep
    rw [hres] at h2
    exact (Except.ok.injEq _ _).mp h2.symm

def projAlpha : Project := ⟨"pa", "alpha-proj", "d", "dom", true⟩

def sampleWorldMulti : World where
  env := { osProjectName := "", osProjectID := "" }
  now := 3
  shared := emptySession
  apiProjects := .ok [projAlpha]
  cliProjects := .error "cli down"
  perProject := fun _ => .ok emptySession

def sampleWorldCLI : World where
  env := { osProjectName := "", osProjectID := "" }
  now := 4
  shared := emptySession
  apiProjects := .error "api down"
  cliProjects := .ok [projAlpha]
  perProject := fun _ => .ok emptySession

def c5Report : ResourceReport :=
  { generatedAt := 3
    projects := [projAlpha]
    resources := []
    summary := ⟨1, 0, 0, 0, 0, 0, 0, 0, 0⟩ }

theorem c5_discovery_chain_witness :
    resolveProjects sampleWorldMulti = .ok [projAlpha] ∧
    resolveProjects sampleWorldCLI = .ok [projAlpha] ∧
    resolveProjects sampleWorldFallback = .ok [fallbackProject] ∧
    (∃ ps2, resolveProjects sampleWorldFallback = .ok ps2) ∧
    resolveProjects sampleWorldMulti = resolveProjects sampleWorldMulti ∧
    resolveProjects sampleWorldCLI = resolveProjects sampleWorldCLI ∧
    c5Report.projects = [projAlpha] :=
  ⟨(c5_discovery_chain sampleWorldMulti).1 [projAlpha] rfl,
   (c5_discovery_chain sampleWorldCLI).2.1 "api down" [projAlpha] rfl rfl,
   (c5_discovery_chain sampleWorldFallback).2.2.1 "api down" "cli down"
     fallbackProject rfl rfl rfl,
   (c5_discovery_chain sampleWorldFallback).2.2.2.1 fallbackProject rfl,
   (c5_discovery_chain sampleWorldMulti).2.2.2.2.1 sampleWorldMulti
     [projAlpha] rfl rfl,
   (c5_discovery_chain sampleWorldCLI).2.2.2.2.2.1 sampleWorldCLI
     "api down" "api down" [projAlpha] rfl rfl rfl rfl,
   (c5_discovery_chain sampleWorldMulti).2.2.2.2.2.2 [projAlpha] c5Report
     rfl rfl rfl⟩

/-! ## AllTenants policy (C6) -/

/-- C6: In shared-session all-scopes mode, the server and volume list
calls are first issued with the all-tenants flag set, and if that
privileged request is rejected the same call is transparently retried
scoped to the caller's own tenant; in per-scope session mode (one client
per discovered scope) list calls never set the all-tenants flag.  The
instrumented collectors record the all-tenants flag of every list call
they issue, in order. -/
theorem c6_all_tenants_policy (s : Session) (env : Env)
    (pn : List (String × String))
    (hmode : trimSpace env.osProjectName = "") :
    ((getServersT s env pn).1.head? = some true ∧
     (getVolumesT s env pn).1.head? = some true) ∧
    (∀ e, s.serversPages true = .error e →
      (getServersT s env pn).1 = [true, false]) ∧
    (∀ x, s.serversPages true = .ok x → (getServersT s env pn).1 = [true]) ∧
    (∀ e, s.volumesPages true = .error e →
      (getVolumesT s env pn).1 = [true, false]) ∧
    (∀ x, s.volumesPages true = .ok x → (getVolumesT s env pn).1 = [true]) ∧
    (∀ e l, s.serversPages true = .error e → s.serversPages false = .ok (.ok l) →
      getServers s env pn = .ok (l.map (normalizeServer s
        (currentProjectOrZero s env).id (currentProjectOrZero s env).name pn))) ∧
    (∀ e l, s.volumesPages true = .error e → s.volumesPages false = .ok (.ok l) →
      getVolumes s env pn = .ok (l.map (normalizeVolume s
        (currentProjectOrZero s env).id (currentProjectOrZero s env).name))) ∧
    (getServersForSingleProjectT s pn).1 = [false] ∧
    (getVolumesForSingleProjectT s pn).1 = [false] := by
  have hb : (trimSpace env.osProjectName == "") = true := by simp [hmode]
  refine ⟨⟨?_, ?_⟩, fun e he => ?_, fun x hx => ?_, fun e he => ?_,
    fun x hx => ?_,
    fun e l he hl => by simp [getServers, getServersT, hb, he, hl],
    fun e l he hl => by simp [getVolumes, getVolumesT, hb, he, hl],
    ?_, ?_⟩
  · simp only [getServersT, hb]
    rcases hx : s.serversPages true with e | x
    · rcases h2 : s.serversPages false with e2 | x2
      · rfl
      · rcases x2 with ex | l <;> rfl
    · rcases x with ex | l <;> rfl
  · simp only [getVolumesT, hb]
    rcases hx : s.volumesPages true with e | x
    · rcases h2 : s.volumesPages false with e2 | x2
      · rfl
      · rcases x2 with ex | l <;> rfl
    · rcases x with ex | l <;> rfl
  · simp only [getServersT, hb, he]
    rcases h2 : s.serversPages false with e2 | x2
    · rfl
    · rcases x2 with ex | l <;> rfl
  · simp only [getServersT, hb]
    rw [hx]
    rcases x with ex | l <;> rfl
  · simp only [getVolumesT, hb, he]
    rcases h2 : s.volumesPages false with e2 | x2
    · rfl
    · rcases x2 with ex | l <;> rfl
  · simp only [getVolumesT, hb]
    rw [hx]
    rcases x with ex | l <;> rfl
  · simp only [getServersForSingleProjectT]
    rcases hx : s.serversPages false with e | x
    · rfl
    · rcases x with ex | l <;> rfl
  · simp only [getVolumesForSingleProjectT]
    rcases hx : s.volumesPages false with e | x
    · rfl
    · rcases x with ex | l <;> rfl

def envMulti : Env := { osProjectName := "", osProjectID := "" }

def c6Session : Session :=
  { emptySession with
      serversPages := fun b => if b then .error "forbidden" else .ok (.ok [])
      volumesPages := fun b => if b then .error "forbidden" else .ok (.ok []) }

theorem c6_all_tenants_policy_witness :
    (getServersT c6Session envMulti []).1 = [true, false] ∧
    (getVolumesT c6Session envMulti []).1 = [true, false] ∧
    getServers c6Session envMulti [] = .ok [] ∧
    getVolumes c6Session envMulti [] = .ok [] ∧
    (getServersT emptySession envMulti []).1 = [true] ∧
    (getVolumesT emptySession envMulti []).1 = [true] ∧
    (getServersForSingleProjectT c6Session []).1 = [false] ∧
    (getVolumesForSingleProjectT c6Session []).1 = [false] :=
  ⟨(c6_all_tenants_policy c6Session envMulti [] rfl).2.1 "forbidden" rfl,
   (c6_all_tenants_policy c6Session envMulti [] rfl).2.2.2.1 "forbidden" rfl,
   (c6_all_tenants_policy c6Session envMulti [] rfl).2.2.2.2.2.1 "forbidden" [] rfl rfl,
   (c6_all_tenants_policy c6Session envMulti [] rfl).2.2.2.2.2.2.1 "forbidden" [] rfl rfl,
   (c6_all_tenants_policy emptySession envMulti [] rfl).2.2.1 (.ok []) rfl,
   (c6_all_tenants_policy emptySession envMulti [] rfl).2.2.2.2.1 (.ok []) rfl,
   (c6_all_tenants_policy c6Session envMulti [] rfl).2.2.2.2.2.2.2.1,
   (c6_all_tenants_policy c6Session envMulti [] rfl).2.2.2.2.2.2.2.2⟩

/-! ## Enrichment degradation (C7) -/

/-- The `attached_to` display field of a volume resource. -/
def volAttachedTo (r : Resource) : Option String :=
  match r.properties with
  | some (.volume p) => some p.attachedTo
  | _ => none

/-- C7: Enrichment lookups are best-effort and degrade to the raw
identifier: for every volume whose attachment references a server id
(e.g. "s1") for which the server-name lookup fails, the volume still
appears in the report and its attached_to field equals that raw server
id — not an empty string and not an error. -/
theorem c7_attachment_fallback (s : Session) (env : Env)
    (pn : List (String × String)) (l : List RawVolume) (v : RawVolume)
    (a : RawAttachment) (rest : List RawAttachment) (e : Err)
    (hmode : trimSpace env.osProjectName = "")
    (hlist : s.volumesPages true = .ok (.ok l))
    (hv : v ∈ l)
    (hatt : v.attachments = a :: rest)
    (hid : a.serverID ≠ "")
    (hfail : s.serverGet a.serverID = .error e) :
    ∃ res, getVolumes s env pn = .ok res ∧
      ∃ r ∈ res, r.id = v.id ∧ r.type = "volume" ∧
        volAttachedTo r = some a.serverID ∧ a.serverID ≠ "" := by
  have hb : (trimSpace env.osProjectName == "") = true := by simp [hmode]
  have hbid : (a.serverID == "") = false := by simpa using hid
  have hgsn : getServerName s a.serverID = a.serverID := by
    unfold getServerName
    simp [hbid, hfail]
  refine ⟨l.map (normalizeVolume s (currentProjectOrZero s env).id
    (currentProjectOrZero s env).name), ?_, ?_⟩
  · simp [getVolumes, getVolumesT, hb, hlist]
  · refine ⟨normalizeVolume s (currentProjectOrZero s env).id
      (currentProjectOrZero s env).name v, List.mem_map_of_mem _ hv, rfl, rfl,
      ?_, hid⟩
    unfold normalizeVolume volAttachedTo getVolumeAttachments
    simp only [hatt, List.map_cons, hbid, Bool.not_eq_true]
    simp [hgsn, hbid]
    exact fun h => h.symm

def c7Volume : RawVolume :=
  { id := "v1", name := "vol", status := "in-use", size := 10,
    volumeType := "ssd", bootable := "true",
    attachments := [{ serverID := "s1", device := "/dev/vdb" }],
    createdAt := 100 }

def c7Session : Session :=
  { emptySession with volumesPages := fun _ => .ok (.ok [c7Volume]) }

theorem c7_attachment_fallback_witness :
    ∃ res, getVolumes c7Session envMulti [] = .ok res ∧
      ∃ r ∈ res, r.id = c7Volume.id ∧ r.type = "volume" ∧
        volAttachedTo r = some "s1" ∧ ("s1" : String) ≠ "" :=
  c7_attachment_fallback c7Session envMulti [] [c7Volume] c7Volume
    ⟨"s1", "/dev/vdb"⟩ [] "down" rfl rfl (List.mem_cons_self _ _) rfl
    (by decide) rfl

/-! ## Scope-name fallback (C8) -/

theorem getServers_ok_shape (s : Session) (env : Env)
    (pn : List (String × String)) (res : List Resource)
    (h : getServers s env pn = .ok res) :
    ∃ l : List RawServer, res = l.map (normalizeServer s
      (currentProjectOrZero s env).id (currentProjectOrZero s env).name pn) := by
  unfold getServers at h
  simp only [getServersT] at h
  rcases h1 : s.serversPages (trimSpace env.osProjectName == "") with e | x
  · rw [h1] at h
    dsimp only at h
    by_cases hcb : (trimSpace env.osProjectName == "") = true
    · rw [if_pos hcb] at h
      rcases h2 : s.serversPages false with e2 | x2
      · rw [h2] at h
        exact Except.noConfusion h
      · rw [h2] at h
        rcases x2 with e3 | l
        · exact Except.noConfusion h
        · exact ⟨l, ((Except.ok.injEq _ _).mp h).symm⟩
    · rw [if_neg hcb] at h
      exact Except.noConfusion h
  · rw [h1] at h
    rcases x with e3 | l
    · exact Except.noConfusion h
    · exact ⟨l, ((Except.ok.injEq _ _).mp h).symm⟩

theorem getServersForSingleProject_ok_shape (s : Session)
    (pn : List (String × String)) (res : List Resource)
    (h : getServersForSingleProject s pn = .ok res) :
    ∃ l : List RawServer, res = l.map (normalizeServer s (headPN pn).1
      (headPN pn).2 pn) := by
  unfold getServersForSingleProject at h
  simp only [getServersForSingleProjectT] at h
  rcases h1 : s.serversPages false with e | x
  · rw [h1] at h
    exact Except.noConfusion h
  · rw [h1] at h
    rcases x with e3 | l
    · exact Except.noConfusion h
    · exact ⟨l, ((Except.ok.injEq _ _).mp h).symm⟩

theorem normalizeServer_projectName_ne (s : Session)
    (fid fname : String) (pn : List (String × String)) (sv : RawServer)
    (hf : fname ≠ "") :
    (normalizeServer s fid fname pn sv).projectName ≠ "" := by
  unfold normalizeServer
  by_cases hl : (lookupName pn sv.tenantID == "") = true
  · simpa [hl] using hf
  · simpa [hl] using (by simpa using hl : lookupName pn sv.tenantID ≠ "")

/-- C8 (amended): whenever a fetched server's tenant id is absent from
the scopeNames map (or maps to an empty name), the collector substitutes
the fallback scope identity — the currently-authenticated scope for
`getServers`, the per-scope client's own project for
`getServersForSingleProject`; consequently ProjectName is non-empty
provided that substituted fallback name is itself non-empty. -/
theorem c8_scope_name_fallback (s : Session) (env : Env)
    (pn : List (String × String)) (r : Resource) (res : List Resource) :
    (getServers s env pn = .ok res → r ∈ res →
      (currentProjectOrZero s env).name ≠ "" → r.projectName ≠ "") ∧
    (getServersForSingleProject s pn = .ok res → r ∈ res →
      (headPN pn).2 ≠ "" → r.projectName ≠ "") ∧
    (∀ sv : RawServer, lookupName pn sv.tenantID = "" →
      (normalizeServer s (currentProjectOrZero s env).id
        (currentProjectOrZero s env).name pn sv).projectName =
        (currentProjectOrZero s env).name ∧
      (normalizeServer s (currentProjectOrZero s env).id
        (currentProjectOrZero s env).name pn sv).projectID =
        (currentProjectOrZero s env).id) := by
  refine ⟨fun h hr hcur => ?_, fun h hr hf => ?_, fun sv hl => ?_⟩
  · obtain ⟨l, rfl⟩ := getServers_ok_shape s env pn res h
    obtain ⟨sv, _, rfl⟩ := List.mem_map.mp hr
    exact normalizeServer_projectName_ne _ _ _ _ _ hcur
  · obtain ⟨l, rfl⟩ := getServersForSingleProject_ok_shape s pn res h
    obtain ⟨sv, _, rfl⟩ := List.mem_map.mp hr
    exact normalizeServer_projectName_ne _ _ _ _ _ hf
  · unfold normalizeServer
    simp [hl]

def c8Server : RawServer :=
  { id := "srv1", name := "web", status := "ACTIVE", tenantID := "p1",
    created := 1, updated := 2, flavorRef := none, addresses := [] }

def c8Session : Session :=
  { emptySession with serversPages := fun _ => .ok (.ok [c8Server]) }

/-- C8 counterexample: when the one-entry scopeNames map of a per-scope
client carries an empty project name (a discovered project whose `Name`
is the empty string), the substituted fallback is that empty name and
the resource's ProjectName is the empty string — the claim's
unconditional non-emptiness fails. -/
theorem c8_scope_name_counterexample :
    ∃ res, getServersForSingleProject c8Session [("p1", "")] = .ok res ∧
      ∃ r ∈ res, r.projectName = "" :=
  ⟨[normalizeServer c8Session "p1" "" [("p1", "")] c8Server], rfl,
   normalizeServer c8Session "p1" "" [("p1", "")] c8Server,
   List.mem_cons_self _ _, rfl⟩

def c8r0 : Resource :=
  normalizeServer c8Session "current-project" "Current Project" [] c8Server

def c8r1 : Resource :=
  normalizeServer c8Session "p1" "team" [("p1", "team")] c8Server

theorem c8_scope_name_fallback_witness :
    c8r0.projectName ≠ "" ∧ c8r1.projectName ≠ "" ∧
    (c8r0.projectName = "Current Project" ∧ c8r0.projectID = "current-project") :=
  ⟨(c8_scope_name_fallback c8Session envMulti [] c8r0 [c8r0]).1 rfl
      (List.mem_cons_self _ _) (by decide),
   (c8_scope_name_fallback c8Session envMulti [("p1", "team")] c8r1 [c8r1]).2.1
      rfl (List.mem_cons_self _ _) (by decide),
   (c8_scope_name_fallback c8Session envMulti [] c8r0 [c8r0]).2.2 c8Server rfl⟩

/-! ## Partial failure tolerance (C4) -/

theorem mem_okOr_left (acc : List Resource) (res : Except Err (List Resource))
    (r : Resource) (hr : r ∈ acc) : r ∈ okOr acc res := by
  rcases res with e | l
  · exact hr
  · exact List.mem_append_left l hr

theorem mem_okOr_ite (acc : List Resource) (res : Except Err (List Resource))
    (b : Bool) (r : Resource) (hr : r ∈ acc) :
    r ∈ (if b then okOr acc res else acc) := by
  split
  · exact mem_okOr_left acc res r hr
  · exact hr

theorem mem_okOr_elim (acc : List Resource) (res : Except Err (List Resource))
    (r : Resource) (hr : r ∈ okOr acc res) :
    r ∈ acc ∨ ∃ l, res = .ok l ∧ r ∈ l := by
  rcases res with e | l
  · exact Or.inl hr
  · rcases List.mem_append.mp hr with h | h
    · exact Or.inl h
    · exact Or.inr ⟨l, rfl, h⟩

theorem mem_okOr_ite_elim (acc : List Resource)
    (res : Except Err (List Resource)) (b : Bool) (r : Resource)
    (hr : r ∈ (if b then okOr acc res else acc)) :
    r ∈ acc ∨ ∃ l, res = .ok l ∧ r ∈ l := by
  split at hr
  · exact mem_okOr_elim acc res r hr
  · exact Or.inl hr

theorem getFloatingIPs_ok_shape (s : Session) (env : Env)
    (pn : List (String × String)) (res : List Resource)
    (h : getFloatingIPs s env pn = .ok res) :
    ∃ l : List RawFIP,
      res = l.map (normalizeFIP s (currentProjectOrZero s env) pn) := by
  unfold getFloatingIPs at h
  rcases h1 : s.fipsList with e | l <;> rw [h1] at h
  · exact Except.noConfusion h
  · exact ⟨l, ((Except.ok.injEq _ _).mp h).symm⟩

theorem getRouters_ok_shape (s : Session) (env : Env)
    (pn : List (String × String)) (res : List Resource)
    (h : getRouters s env pn = .ok res) :
    ∃ l : List RawRouter,
      res = l.map (normalizeRouter s (currentProjectOrZero s env) pn) := by
  unfold getRouters at h
  rcases h1 : s.routersList with e | l <;> rw [h1] at h
  · exact Except.noConfusion h
  · exact ⟨l, ((Except.ok.injEq _ _).mp h).symm⟩

theorem getNetworks_ok_shape (s : Session) (env : Env)
    (pn : List (String × String)) (res : List Resource)
    (h : getNetworks s env pn = .ok res) :
    ∃ l : List RawNetwork,
      res = l.map (normalizeNetwork s (currentProjectOrZero s env) pn) := by
  unfold getNetworks at h
  rcases h1 : s.networksList with e | l <;> rw [h1] at h
  · exact Except.noConfusion h
  · exact ⟨l, ((Except.ok.injEq _ _).mp h).symm⟩

theorem type_of_mem_getServersForSingleProject (s : Session)
    (pn : List (String × String)) (res : List Resource) (r : Resource)
    (h : getServersForSingleProject s pn = .ok res) (hr : r ∈ res) :
    r.type = "server" := by
  obtain ⟨l, rfl⟩ := getServersForSingleProject_ok_shape s pn res h
  obtain ⟨sv, _, rfl⟩ := List.mem_map.mp hr
  rfl

theorem type_of_mem_getFloatingIPs (s : Session) (env : Env)
    (pn : List (String × String)) (res : List Resource) (r : Resource)
    (h : getFloatingIPs s env pn = .ok res) (hr : r ∈ res) :
    r.type = "floating_ip" := by
  obtain ⟨l, rfl⟩ := getFloatingIPs_ok_shape s env pn res h
  obtain ⟨x, _, rfl⟩ := List.mem_map.mp hr
  rfl

theorem type_of_mem_getRouters (s : Session) (env : Env)
    (pn : List (String × String)) (res : List Resource) (r : Resource)
    (h : getRouters s env pn = .ok res) (hr : r ∈ res) :
    r.type = "router" := by
  obtain ⟨l, rfl⟩ := getRouters_ok_shape s env pn res h
  obtain ⟨x, _, rfl⟩ := List.mem_map.mp hr
  rfl

theorem type_of_mem_getNetworks (s : Session) (env : Env)
    (pn : List (String × String)) (res : List Resource) (r : Resource)
    (h : getNetworks s env pn = .ok res) (hr : r ∈ res) :
    r.type = "network" := by
  obtain ⟨l, rfl⟩ := getNetworks_ok_shape s env pn res h
  obtain ⟨x, _, rfl⟩ := List.mem_map.mp hr
  rfl

theorem type_of_mem_getLoadBalancers (s : Session) (env : Env)
    (pn : List (String × String)) (res : List Resource) (r : Resource)
    (h : getLoadBalancers s env pn = .ok res) (hr : r ∈ res) :
    r.type = "load_balancer" := by
  unfold getLoadBalancers at h
  split at h
  · cases (Except.ok.injEq _ _).mp h
    cases hr
  · rcases h1 : s.lbList with e | l <;> rw [h1] at h
    · exact Except.noConfusion h
    · cases ((Except.ok.injEq _ _).mp h).symm
      obtain ⟨x, _, rfl⟩ := List.mem_map.mp hr
      rfl

theorem type_of_mem_normalizeVPNConns (s : Session) (current : Project)
    (pn : List (String × String)) (l : List RawVPNConn)
    (res : List Resource) (r : Resource)
    (h : normalizeVPNConns s current pn l = some res) (hr : r ∈ res) :
    r.type = "vpn_service" := by
  induction l generalizing res with
  | nil =>
    cases (Option.some.injEq _ _).mp h
    cases hr
  | cons c rest ih =>
    unfold normalizeVPNConns at h
    rcases h1 : vpnConnName c with _ | nm <;> rw [h1] at h
    · exact Option.noConfusion h
    · rcases h2 : normalizeVPNConns s current pn rest with _ | rs <;>
        rw [h2] at h
      · exact Option.noConfusion h
      · cases (Option.some.injEq _ _).mp h
        rcases List.mem_cons.mp hr with hh | hh
        · subst hh; rfl
        · exact ih rs h2 hh

theorem type_of_mem_getVPNConnections (s : Session) (env : Env)
    (pn : List (String × String)) (res : List Resource) (r : Resource)
    (h : getVPNConnections s env pn = some (.ok res)) (hr : r ∈ res) :
    r.type = "vpn_service" := by
  unfold getVPNConnections at h
  rcases h1 : s.vpnConnsPages with e | x <;> rw [h1] at h
  · simp at h
  · rcases x with e2 | l
    · simp at h
    · dsimp only at h
      rcases h2 : normalizeVPNConns s (currentProjectOrZero s env) pn l with _ | rs <;>
        rw [h2] at h
      · exact Option.noConfusion h
      · simp only [Option.map_some', Option.some.injEq, Except.ok.injEq] at h
        subst h
        exact type_of_mem_normalizeVPNConns s _ pn l _ r h2 hr

theorem contribution_ok_or_panic (w : World) (p : Project) (s : Session)
    (hs : w.perProject p.name = .ok s) :
    getResourcesForProjectWithProgress w p = none ∨
    ∃ rs, getResourcesForProjectWithProgress w p = some (.ok rs) := by
  unfold getResourcesForProjectWithProgress
  rw [hs]
  dsimp only
  rcases getVPNConnections s w.env [(p.id, p.name)] with _ | v
  · exact Or.inl rfl
  · exact Or.inr ⟨_, rfl⟩

theorem servers_sub_contribution (w : World) (p : Project) (s : Session)
    (S rs : List Resource)
    (hs : w.perProject p.name = .ok s)
    (hS : getServersForSingleProject s [(p.id, p.name)] = .ok S)
    (hres : getResourcesForProjectWithProgress w p = some (.ok rs)) :
    ∀ r ∈ S, r ∈ rs := by
  intro r hr
  unfold getResourcesForProjectWithProgress at hres
  rw [hs] at hres
  dsimp only at hres
  rcases hv : getVPNConnections s w.env [(p.id, p.name)] with _ | v <;>
    rw [hv] at hres
  · exact Option.noConfusion hres
  · obtain rfl := ((Except.ok.injEq _ _).mp ((Option.some.injEq _ _).mp hres))
    have h1 : r ∈ okOr [] (getServersForSingleProject s [(p.id, p.name)]) := by
      rw [hS]
      simpa [okOr] using hr
    exact mem_okOr_ite _ _ _ _ (mem_okOr_left _ _ _ (mem_okOr_ite _ _ _ _
      (mem_okOr_left _ _ _ (mem_okOr_left _ _ _ (mem_okOr_left _ _ _
        (mem_okOr_left _ _ _ h1))))))

theorem contribution_no_volume (w : World) (p : Project) (s : Session)
    (rs : List Resource) (e : Err)
    (hs : w.perProject p.name = .ok s)
    (hvol : getVolumesForSingleProject s [(p.id, p.name)] = .error e)
    (hres : getResourcesForProjectWithProgress w p = some (.ok rs)) :
    ∀ r ∈ rs, r.type ≠ "volume" := by
  intro r hr
  unfold getResourcesForProjectWithProgress at hres
  rw [hs] at hres
  dsimp only at hres
  rcases hv : getVPNConnections s w.env [(p.id, p.name)] with _ | v <;>
    rw [hv] at hres
  · exact Option.noConfusion hres
  · obtain rfl := ((Except.ok.injEq _ _).mp ((Option.some.injEq _ _).mp hres))
    rcases mem_okOr_ite_elim _ _ _ _ hr with h7 | ⟨l, hcl, hrl⟩
    · rcases mem_okOr_elim _ _ _ h7 with h6 | ⟨lv, hlv, hrlv⟩
      · rcases mem_okOr_ite_elim _ _ _ _ h6 with h5 | ⟨llb, hllb, hrllb⟩
        · rcases mem_okOr_elim _ _ _ h5 with h4 | ⟨ln, hln, hrln⟩
          · rcases mem_okOr_elim _ _ _ h4 with h3 | ⟨lr, hlr, hrlr⟩
            · rcases mem_okOr_elim _ _ _ h3 with h2 | ⟨lf, hlf, hrlf⟩
              · rcases mem_okOr_elim _ _ _ h2 with h1 | ⟨lV, hlV, _⟩
                · rcases mem_okOr_elim _ _ _ h1 with h0 | ⟨lS, hlS, hrlS⟩
                  · cases h0
                  · rw [type_of_mem_getServersForSingleProject s _ lS r hlS hrlS]
                    decide
                · rw [hvol] at hlV
                  exact Except.noConfusion hlV
              · rw [type_of_mem_getFloatingIPs s w.env _ lf r hlf hrlf]
                decide
            · rw [type_of_mem_getRouters s w.env _ lr r hlr hrlr]
              decide
          · rw [type_of_mem_getNetworks s w.env _ ln r hln hrln]
            decide
        · rw [type_of_mem_getLoadBalancers s w.env _ llb r hllb hrllb]
          decide
      · subst hlv
        rw [type_of_mem_getVPNConnections s w.env _ lv r hv hrlv]
        decide
    · rw [(Except.ok.injEq _ _).mp hcl.symm] at hrl
      cases hrl

theorem loopWP_mem (w : World) (ps : List Project) (acc : List Resource)
    (hloop : collectProjectsLoopWP w ps = some acc) :
    (∀ q ∈ ps, ∀ qrs, getResourcesForProjectWithProgress w q = some (.ok qrs) →
      ∀ r ∈ qrs, r ∈ acc) ∧
    (∀ q ∈ ps, getResourcesForProjectWithProgress w q ≠ none) := by
  induction ps generalizing acc with
  | nil =>
    exact ⟨fun q hq => absurd hq (List.not_mem_nil q), fun q hq => absurd hq (List.not_mem_nil q)⟩
  | cons q0 rest ih =>
    unfold collectProjectsLoopWP at hloop
    rcases h0 : getResourcesForProjectWithProgress w q0 with _ | out <;>
      rw [h0] at hloop
    · exact Option.noConfusion hloop
    · rcases out with e | rs0
      · obtain ⟨ihm, ihn⟩ := ih acc hloop
        refine ⟨fun q hq qrs hqrs r hr => ?_, fun q hq => ?_⟩
        · rcases List.mem_cons.mp hq with rfl | hq2
          · rw [h0] at hqrs
            exact absurd ((Option.some.injEq _ _).mp hqrs)
              (fun hh => Except.noConfusion hh)
          · exact ihm q hq2 qrs hqrs r hr
        · rcases List.mem_cons.mp hq with rfl | hq2
          · rw [h0]
            exact fun hh => Option.noConfusion hh
          · exact ihn q hq2
      · rcases hrest : collectProjectsLoopWP w rest with _ | acc2 <;>
          rw [hrest] at hloop
        · exact Option.noConfusion hloop
        · obtain rfl := (Option.some.injEq _ _).mp hloop
          obtain ⟨ihm, ihn⟩ := ih acc2 hrest
          refine ⟨fun q hq qrs hqrs r hr => ?_, fun q hq => ?_⟩
          · rcases List.mem_cons.mp hq with rfl | hq2
            · rw [h0] at hqrs
              obtain rfl := (Except.ok.injEq _ _).mp
                ((Option.some.injEq _ _).mp hqrs)
              exact List.mem_append_left _ hr
            · exact List.mem_append_right _ (ihm q hq2 qrs hqrs r hr)
          · rcases List.mem_cons.mp hq with rfl | hq2
            · rw [h0]
              exact fun hh => Option.noConfusion hh
            · exact ihn q hq2

theorem getAllWP_multi (w : World) (ps : List Project) (rep : ResourceReport)
    (hmode : trimSpace w.env.osProjectName = "")
    (hapi : w.apiProjects = .ok ps)
    (hrep : GetAllResourcesWithProgress w = some (.ok rep)) :
    ∃ acc, collectProjectsLoopWP w ps = some acc ∧ rep.resources = acc := by
  unfold GetAllResourcesWithProgress at hrep
  rw [if_neg (by simp [hmode]), hapi] at hrep
  dsimp only at hrep
  rcases hl : collectProjectsLoopWP w ps with _ | acc <;> rw [hl] at hrep
  · rw [Option.map_none'] at hrep
    exact Option.noConfusion hrep
  · refine ⟨acc, rfl, ?_⟩
    simp only [Option.map_some', Option.some.injEq] at hrep
    obtain rfl := ((Except.ok.injEq _ _).mp hrep).symm
    rfl

/-- C4: In an all-scopes run over N scopes, if one collector (e.g. the
volume collector) returns an error for one scope, the final Report still
contains every resource successfully collected from the other N−1 scopes
and from the other resource types of the failing scope; the failing type
contributes zero resources for that scope and the run continues. -/
theorem c4_partial_failure_tolerance (w : World) (ps : List Project)
    (p : Project) (s : Session) (S : List Resource) (e : Err)
    (rep : ResourceReport)
    (hmode : trimSpace w.env.osProjectName = "")
    (hapi : w.apiProjects = .ok ps)
    (hrep : GetAllResourcesWithProgress w = some (.ok rep))
    (hp : p ∈ ps)
    (hs : w.perProject p.name = .ok s)
    (hS : getServersForSingleProject s [(p.id, p.name)] = .ok S)
    (hvol : getVolumesForSingleProject s [(p.id, p.name)] = .error e) :
    (∀ r ∈ S, r ∈ rep.resources) ∧
    (∀ q ∈ ps, ∀ qrs, getResourcesForProjectWithProgress w q = some (.ok qrs) →
      ∀ r ∈ qrs, r ∈ rep.resources) ∧
    (∀ prs, getResourcesForProjectWithProgress w p = some (.ok prs) →
      ∀ r ∈ prs, r.type ≠ "volume") := by
  obtain ⟨acc, hloop, hacc⟩ := getAllWP_multi w ps rep hmode hapi hrep
  obtain ⟨hm, hn⟩ := loopWP_mem w ps acc hloop
  have hok : ∃ prs, getResourcesForProjectWithProgress w p = some (.ok prs) := by
    rcases contribution_ok_or_panic w p s hs with hnone | hok
    · exact absurd hnone (hn p hp)
    · exact hok
  refine ⟨fun r hr => ?_, fun q hq qrs hqrs r hr => ?_, fun prs hprs r hr => ?_⟩
  · obtain ⟨prs, hprs⟩ := hok
    have hsub := servers_sub_contribution w p s S prs hs hS hprs
    rw [hacc]
    exact hm p hp prs hprs r (hsub r hr)
  · rw [hacc]
    exact hm q hq qrs hqrs r hr
  · exact contribution_no_volume w p s prs e hs hvol hprs r hr

def c4Srv : RawServer :=
  { id := "srv4", name := "w", status := "ACTIVE", tenantID := "p4",
    created := 1, updated := 2, flavorRef := none, addresses := [] }

def c4Proj : Project := ⟨"p4", "proj4", "", "", true⟩

def c4Session : Session :=
  { emptySession with
      serversPages := fun _ => .ok (.ok [c4Srv])
      volumesPages := fun _ => .error "volume service down" }

def c4World : World where
  env := { osProjectName := "", osProjectID := "" }
  now := 9
  shared := emptySession
  apiProjects := .ok [c4Proj]
  cliProjects := .error "cli down"
  perProject := fun _ => .ok c4Session

def c4r : Resource :=
  normalizeServer c4Session "p4" "proj4" [("p4", "proj4")] c4Srv

def c4Contribution : List Resource :=
  (((([] ++ [c4r]) ++ []) ++ []) ++ []) ++ []

def c4Report : ResourceReport :=
  { generatedAt := 9
    projects := [c4Proj]
    resources := c4Contribution ++ []
    summary := ⟨1, 1, 0, 0, 0, 0, 0, 0, 0⟩ }

theorem c4_partial_failure_tolerance_witness :
    c4r ∈ c4Report.resources ∧ c4r ∈ c4Report.resources ∧
    c4r.type ≠ "volume" :=
  ⟨(c4_partial_failure_tolerance c4World [c4Proj] c4Proj c4Session [c4r]
      "volume service down" c4Report rfl rfl rfl (List.mem_cons_self _ _)
      rfl rfl rfl).1 c4r (List.mem_cons_self _ _),
   (c4_partial_failure_tolerance c4World [c4Proj] c4Proj c4Session [c4r]
      "volume service down" c4Report rfl rfl rfl (List.mem_cons_self _ _)
      rfl rfl rfl).2.1 c4Proj (List.mem_cons_self _ _) c4Contribution rfl
      c4r (by simp [c4Contribution]),
   (c4_partial_failure_tolerance c4World [c4Proj] c4Proj c4Session [c4r]
      "volume service down" c4Report rfl rfl rfl (List.mem_cons_self _ _)
      rfl rfl rfl).2.2 c4Contribution rfl c4r (by simp [c4Contribution])⟩
